import Mathlib

/-!
Verification of the diagnostic-analysis core of the repository
(src/utils/code_analyzer.py) against its natural-language specification.

The Python module is shallowly embedded:
- strings are Lean strings, manipulated through their character lists;
- the regular expressions appearing literally in detect_code_smells and
  analyze_runtime_output are embedded as abstract syntax trees interpreted by
  a Brzozowski-derivative matcher (existential match semantics, which is what
  boolean uses of re.search observe);
- the four patterns using backreferences, and the three patterns with a
  bounded repetition of 200 or more, are embedded as bespoke searchers whose
  comments spell out the correspondence;
- external effects (shutil.which, javac, java and its timeout) are an oracle
  Env passed to analyze_java_code; the result of each spawned process is a
  field of the oracle, which is faithful because the source only observes
  exit status and captured output;
- the pattern table data/common_java_errors.json is not part of the sources;
  rules are a parameter of parse_javac_output, modelled from the spec
  (section 6, Pattern Library file format) as records with a regex string
  restricted to literal patterns, whose flag-less Python search semantics is
  exact substring occurrence.

Python notes: str.strip and str.lower are reproduced for the ASCII inputs
the theorems use; slicing and len act on code points, as Lean char lists do.
-/

set_option maxRecDepth 20000

namespace CodeAnalyzer

/-! ### Characters and low-level string helpers -/

def lbrace : Char := Char.ofNat 123
def rbrace : Char := Char.ofNat 125
def quoteC : Char := Char.ofNat 34
def bslash : Char := Char.ofNat 92

/-- Python whitespace class for str.strip and the regex class for \s
(ASCII part: space, tab, newline, carriage return, vertical tab, form feed). -/
def isPyWs (c : Char) : Bool :=
  c == ' ' || c == '\t' || c == '\n' || c == '\r' ||
    c == Char.ofNat 11 || c == Char.ofNat 12

/-- Regex class \w (ASCII part): letters, digits, underscore. -/
def isWordC (c : Char) : Bool :=
  (('a' ≤ c && c ≤ 'z') || ('A' ≤ c && c ≤ 'Z') || ('0' ≤ c && c ≤ '9') || c == '_')

def isDigitC (c : Char) : Bool := '0' ≤ c && c ≤ '9'

def isUpperC (c : Char) : Bool := 'A' ≤ c && c ≤ 'Z'

/-- Python str.lower for ASCII letters. -/
def lowerC (c : Char) : Char :=
  if isUpperC c then Char.ofNat (c.toNat + 32) else c

def pyLower (s : List Char) : List Char := s.map lowerC

/-- Python substring containment, `pat in hay`. -/
def infixOfL (pat : List Char) : List Char → Bool
  | [] => pat.isEmpty
  | c :: rest => pat.isPrefixOf (c :: rest) || infixOfL pat rest

/-- Python `p in s` on strings. -/
def pyIn (p : String) (s : String) : Bool := infixOfL p.data s.data

/-- Python str.count: non-overlapping occurrences scanning left to right.
The first argument is fuel; call through pyCount. -/
def countSubAux (pat : List Char) : Nat → List Char → Nat
  | 0, _ => 0
  | _ + 1, [] => if pat.isEmpty then 1 else 0
  | fuel + 1, c :: rest =>
    if pat.isPrefixOf (c :: rest) && !pat.isEmpty then
      1 + countSubAux pat fuel (List.drop (pat.length - 1) rest)
    else
      countSubAux pat fuel rest

def pyCount (s : String) (pat : String) : Nat :=
  countSubAux pat.data (s.data.length + 1) s.data

/-- Python str.strip (both ends, default whitespace). -/
def pyStrip (s : List Char) : List Char :=
  ((s.dropWhile isPyWs).reverse.dropWhile isPyWs).reverse

/-- Python s.split with a one-character separator, first component. -/
def firstField (sep : Char) (s : List Char) : List Char :=
  s.takeWhile (· != sep)

/-! ### A Brzozowski-derivative regular-expression engine

Existential semantics: reSearch r s decides whether some substring of s is
in the language of r, which is exactly the truthiness of re.search for
patterns without backreferences, lookaround or anchors. -/

inductive RE where
  | emp : RE
  | eps : RE
  | cls : (Char → Bool) → RE
  | seq : RE → RE → RE
  | alt : RE → RE → RE
  | star : RE → RE

namespace RE

def chr (c : Char) : RE := cls (· == c)

def isEmp : RE → Bool
  | emp => true
  | _ => false

def isEps : RE → Bool
  | eps => true
  | _ => false

/-- Smart sequencing: absorbs emp and eps. -/
def seqS (a b : RE) : RE :=
  if a.isEmp || b.isEmp then emp
  else if a.isEps then b
  else if b.isEps then a
  else seq a b

/-- Smart alternation: absorbs emp. -/
def altS (a b : RE) : RE :=
  if a.isEmp then b else if b.isEmp then a else alt a b

def nullable : RE → Bool
  | emp => false
  | eps => true
  | cls _ => false
  | seq a b => nullable a && nullable b
  | alt a b => nullable a || nullable b
  | star _ => true

def deriv (r : RE) (c : Char) : RE :=
  match r with
  | emp => emp
  | eps => emp
  | cls f => if f c then eps else emp
  | seq a b =>
    if nullable a then altS (seqS (deriv a c) b) (deriv b c)
    else seqS (deriv a c) b
  | alt a b => altS (deriv a c) (deriv b c)
  | star a => seqS (deriv a c) (star a)

/-- Does some prefix of cs belong to the language of r? -/
def matchesFrom (r : RE) : List Char → Bool
  | [] => nullable r
  | c :: rest => nullable r || (!r.isEmp && matchesFrom (deriv r c) rest)

/-- Truthiness of re.search r cs: a match starting at some position. -/
def reSearch (r : RE) : List Char → Bool
  | [] => nullable r
  | c :: rest => matchesFrom r (c :: rest) || reSearch r rest

/-- Lengths of all prefixes of cs in the language of r. -/
def lensFrom (r : RE) : List Char → List Nat
  | [] => if nullable r then [0] else []
  | c :: rest =>
    (if nullable r then [0] else []) ++
      (if r.isEmp then [] else (lensFrom (deriv r c) rest).map (· + 1))

/-- Length of the longest prefix of cs in the language of r. -/
def longestFrom (r : RE) : List Char → Option Nat
  | [] => if nullable r then some 0 else none
  | c :: rest =>
    match (if r.isEmp then none else longestFrom (deriv r c) rest) with
    | some n => some (n + 1)
    | none => if nullable r then some 0 else none

/-- Literal string as a regex. -/
def lit (s : String) : RE := s.data.foldr (fun c acc => seq (chr c) acc) eps

def opt (r : RE) : RE := alt eps r

def plus (r : RE) : RE := seq r (star r)

/-- r repeated exactly n times, as nested seq. -/
def rep (n : Nat) (r : RE) : RE :=
  match n with
  | 0 => eps
  | n + 1 => seq r (rep n r)

end RE

open RE

def wsStar : RE := star (cls isPyWs)
def wsPlus : RE := plus (cls isPyWs)
def wordPlus : RE := plus (cls isWordC)
def wordStar : RE := star (cls isWordC)
def digitPlus : RE := plus (cls isDigitC)
/-- Regex ., which does not match a newline (no DOTALL). -/
def anyNoNl : RE := cls (· != '\n')
/-- Regex . under re.DOTALL: any character. -/
def anyDotAll : RE := cls (fun _ => true)

/-- Word-boundary search: a match of r starting at a position whose previous
character is not a word character (when needL), and ending before a
character that is not a word character or at the end (when needR). Captures
the boundaries written as a leading or trailing \b in patterns whose first
and last matched characters are word characters, which holds for every
pattern this development applies it to. -/
def searchBndAux (r : RE) (needL needR : Bool) : Option Char → List Char → Bool
  | prev, cs =>
    (decide ((!needL || (match prev with
        | none => true
        | some p => !isWordC p)) = true) &&
      (lensFrom r cs).any (fun l =>
        !needR ||
          (match (cs.drop l).head? with
           | none => true
           | some nc => !isWordC nc))) ||
    (match cs with
     | [] => false
     | c :: rest => searchBndAux r needL needR (some c) rest)

def searchBnd (r : RE) (needL needR : Bool) (cs : List Char) : Bool :=
  searchBndAux r needL needR none cs

/-- Number of matches that re.findall reports: scan left to right, count a
match at the current position using its greedy extent and resume after it,
advancing by one character on a zero-width match or a failure. The patterns
this is applied to (try brace, catch paren, finally brace) have a unique
match extent, so longestFrom coincides with the greedy extent. -/
def countReAux (r : RE) : Nat → List Char → Nat
  | 0, _ => 0
  | _ + 1, [] => if r.nullable then 1 else 0
  | fuel + 1, c :: rest =>
    match longestFrom r (c :: rest) with
    | none => countReAux r fuel rest
    | some 0 => 1 + countReAux r fuel rest
    | some (n + 1) => 1 + countReAux r fuel (List.drop n rest)

def countRe (r : RE) (cs : List Char) : Nat :=
  countReAux r (cs.length + 1) cs

/-! ### Diagnostics -/

/-- A diagnostic dictionary. Field order: id, title, explanation, fix,
detail. The source uses the key fix_example in parse_javac_output and
analyze_runtime_output and the key fix in detect_code_smells; the key name
is not observable in any claim, so one field stands for both. -/
structure Diag where
  id : String
  title : String
  explanation : String
  fix : String
  detail : String
deriving DecidableEq, Repr

/-- The category of a diagnostic id: the substring before the first
underscore, Python id.split(sep)[0] with sep the underscore. -/
def categoryOf (id : String) : String :=
  String.mk (firstField '_' id.data)

/-! ### detect_code_smells: the 103 checks, in source order
(code_analyzer.py lines 84 to 1127). Each check is a condition on the raw
source text paired with a constant diagnostic. -/

structure SmellCheck where
  cond : String → Bool
  diag : Diag

/-- Helper to chain regexes. -/
def cat (l : List RE) : RE := l.foldr RE.seq RE.eps

def isOpC (c : Char) : Bool := c == '-' || c == '+' || c == '*' || c == '/'

/- Check 1, line 94: i\s*<=?\s*(length|size) -/
def re01 : RE := cat [chr 'i', wsStar, chr '<', opt (chr '='), wsStar, alt (lit "length") (lit "size")]
def cond01 (code : String) : Bool := reSearch re01 code.data

/- Check 2, line 104: while\s*\(\s*true\s*\) or for\s*\(\s*;\s*;\s*\) -/
def re02a : RE := cat [lit "while", wsStar, chr '(', wsStar, lit "true", wsStar, chr ')']
def re02b : RE := cat [lit "for", wsStar, chr '(', wsStar, chr ';', wsStar, chr ';', wsStar, chr ')']
def cond02 (code : String) : Bool := reSearch re02a code.data || reSearch re02b code.data

/- Check 3, line 114: for\s*\(\s*i\s*=\s*\d+\s*;\s*i\s*<\s*\d+\s*;\s*i\s*[\+\-]=?\s*-?\d+\) -/
def re03 : RE := cat [lit "for", wsStar, chr '(', wsStar, chr 'i', wsStar, chr '=', wsStar,
  digitPlus, wsStar, chr ';', wsStar, chr 'i', wsStar, chr '<', wsStar, digitPlus, wsStar,
  chr ';', wsStar, chr 'i', wsStar, cls (fun c => c == '+' || c == '-'), opt (chr '='),
  wsStar, opt (chr '-'), digitPlus, chr ')']
def cond03 (code : String) : Bool := reSearch re03 code.data

/- Check 4, line 124 (on code_lower): (!=|==)\s*(int|double|float|long|short|byte) -/
def re04 : RE := cat [alt (lit "!=") (lit "=="), wsStar,
  alt (lit "int") (alt (lit "double") (alt (lit "float") (alt (lit "long") (alt (lit "short") (lit "byte")))))]
def cond04 (code : String) : Bool := reSearch re04 (pyLower code.data)

/- Check 5, line 134: String in code and \b\w+\s*==\s*\w+\b -/
def re05 : RE := cat [wordPlus, wsStar, lit "==", wsStar, wordPlus]
def cond05 (code : String) : Bool := pyIn "String" code && searchBnd re05 true true code.data

/- Check 6, line 144: \d+\s*/\s*\d+ -/
def re06 : RE := cat [digitPlus, wsStar, chr '/', wsStar, digitPlus]
def cond06 (code : String) : Bool := reSearch re06 code.data

/- Check 7, line 154: (0\.1|0\.01|0\.001)\s*== -/
def re07 : RE := cat [alt (lit "0.1") (alt (lit "0.01") (lit "0.001")), wsStar, lit "=="]
def cond07 (code : String) : Bool := reSearch re07 code.data

/- Check 8, line 164: \w+\s*\*\s*\+|[-+*/]\s*[-+*/] -/
def re08 : RE := alt (cat [wordPlus, wsStar, chr '*', wsStar, chr '+']) (cat [cls isOpC, wsStar, cls isOpC])
def cond08 (code : String) : Bool := reSearch re08 code.data

/- Check 9, line 174: {\s*\w+\s*=\s*[^;]*;\s*\w+\s*=\s*[^;]*; -/
def re09 : RE := cat [chr lbrace, wsStar, wordPlus, wsStar, chr '=', wsStar,
  star (cls (· != ';')), chr ';', wsStar, wordPlus, wsStar, chr '=', wsStar,
  star (cls (· != ';')), chr ';']
def cond09 (code : String) : Bool := reSearch re09 code.data

/- Check 10, line 184, with a backreference:
(int|double|float|long|String)\s+(\w+)\s*;[^\n]*\n[^\n]*(int|double|float|long|String)\s+\2\b
Embedded bespoke. The subgroup (\w+) followed by \s*; must be a maximal run
of word characters, since a shorter choice leaves a word character where
the pattern requires whitespace or a semicolon; likewise \s+ before a word
must consume the whole whitespace run. The \n is the first newline after
the semicolon because [^\n]* cannot cross one. -/
def typeWords : List (List Char) :=
  ["int".data, "double".data, "float".data, "long".data, "String".data]

/-- Deterministic tail \s+ (\w+) \s* ; returning the captured name and the
rest after the semicolon. -/
def grabDecl (cs : List Char) : Option (List Char × List Char) :=
  match cs with
  | [] => none
  | c :: rest =>
    if isPyWs c then
      let afterWs := rest.dropWhile isPyWs
      let name := afterWs.takeWhile isWordC
      if name.isEmpty then none
      else
        match (afterWs.drop name.length).dropWhile isPyWs with
        | ';' :: rest2 => some (name, rest2)
        | _ => none
    else none

/-- Deterministic tail \s+ \2 \b at cs, for a given captured name. -/
def shadowTail (name : List Char) (cs : List Char) : Bool :=
  match cs with
  | [] => false
  | c :: rest =>
    isPyWs c &&
      (let a := rest.dropWhile isPyWs
       name.isPrefixOf a &&
         (match (a.drop name.length).head? with
          | none => true
          | some nc => !isWordC nc))

def cond10 (code : String) : Bool :=
  let cs := code.data
  cs.any (· == '\n') &&
    (List.range cs.length).any fun i =>
      typeWords.any fun t =>
        t.isPrefixOf (cs.drop i) &&
          (match grabDecl ((cs.drop i).drop t.length) with
           | none => false
           | some (name, rest2) =>
             match rest2.dropWhile (· != '\n') with
             | [] => false
             | _ :: afterNl =>
               (List.range ((afterNl.takeWhile (· != '\n')).length + 1)).any fun m =>
                 typeWords.any fun t2 =>
                   t2.isPrefixOf (afterNl.drop m) &&
                     shadowTail name ((afterNl.drop m).drop t2.length))

/- Check 11, line 194, with a backreference:
boolean\s+(\w+)\s*;\s*if\s*\(\s*\1\s*\)  (same determinism argument). -/
def cond11 (code : String) : Bool :=
  let cs := code.data
  (List.range cs.length).any fun i =>
    ("boolean".data).isPrefixOf (cs.drop i) &&
      (match grabDecl ((cs.drop i).drop 7) with
       | none => false
       | some (name, rest2) =>
         let a := rest2.dropWhile isPyWs
         ("if".data).isPrefixOf a &&
           (match (a.drop 2).dropWhile isPyWs with
            | '(' :: b2 =>
              let b3 := b2.dropWhile isPyWs
              name.isPrefixOf b3 &&
                (match (b3.drop name.length).dropWhile isPyWs with
                 | ')' :: _ => true
                 | _ => false)
            | _ => false))

/- Check 12, line 204: \b(18|65|100|999|365|24|60|1024)\b -/
def re12 : RE := alt (lit "18") (alt (lit "65") (alt (lit "100") (alt (lit "999")
  (alt (lit "365") (alt (lit "24") (alt (lit "60") (lit "1024")))))))
def cond12 (code : String) : Bool := searchBnd re12 true true code.data

/- Check 13, line 214: \.get\( and null not in code_lower -/
def cond13 (code : String) : Bool := reSearch (lit ".get(") code.data && !pyIn "null" (String.mk (pyLower code.data))

/- Check 14, line 224: try in code and findall counts -/
def reTryBrace : RE := cat [lit "try", wsStar, chr lbrace]
def reCatchParen : RE := cat [lit "catch", wsStar, chr '(']
def reFinallyBrace : RE := cat [lit "finally", wsStar, chr lbrace]
def cond14 (code : String) : Bool :=
  pyIn "try" code &&
    decide (countRe reCatchParen code.data + countRe reFinallyBrace code.data < countRe reTryBrace code.data)

/- Check 15, line 234: catch\s*\(\s*Exception\s*\w*\s*\) -/
def re15 : RE := cat [lit "catch", wsStar, chr '(', wsStar, lit "Exception", wsStar, wordStar, wsStar, chr ')']
def cond15 (code : String) : Bool := reSearch re15 code.data

/- Check 16, line 244: catch\s*\([^)]*\)\s*\{\s*(//\s*TODO|//\s*ignore|//\s*ignored)?\s*\} -/
def re16 : RE := cat [lit "catch", wsStar, chr '(', star (cls (· != ')')), chr ')', wsStar,
  chr lbrace, wsStar,
  opt (alt (cat [lit "//", wsStar, lit "TODO"])
    (alt (cat [lit "//", wsStar, lit "ignore"]) (cat [lit "//", wsStar, lit "ignored"]))),
  wsStar, chr rbrace]
def cond16 (code : String) : Bool := reSearch re16 code.data

/- Check 17, line 254: new\s+(FileInputStream|FileOutputStream|BufferedReader|Scanner|Connection)\s*\( and not close\s*\( -/
def re17 : RE := cat [lit "new", wsPlus,
  alt (lit "FileInputStream") (alt (lit "FileOutputStream") (alt (lit "BufferedReader") (alt (lit "Scanner") (lit "Connection")))),
  wsStar, chr '(']
def reClose : RE := cat [lit "close", wsStar, chr '(']
def cond17 (code : String) : Bool := reSearch re17 code.data && !reSearch reClose code.data

/- Check 18, line 264: static\s+List<|static\s+Map<|static\s+Set< -/
def re18 : RE := alt (cat [lit "static", wsPlus, lit "List<"])
  (alt (cat [lit "static", wsPlus, lit "Map<"]) (cat [lit "static", wsPlus, lit "Set<"]))
def cond18 (code : String) : Bool := reSearch re18 code.data

/- Check 19, line 274: ArrayList in code and \.contains\( -/
def cond19 (code : String) : Bool := pyIn "ArrayList" code && reSearch (lit ".contains(") code.data

/- Check 20, line 284 -/
def cond20 (code : String) : Bool :=
  pyIn "bubble" (String.mk (pyLower code.data)) || pyIn "selection sort" (String.mk (pyLower code.data))

/- Check 21, line 294: micro-optim in lower, or (optimiz in lower and TODO in lower);
the last conjunct tests the uppercase word against the lowercased text, as the source does. -/
def cond21 (code : String) : Bool :=
  pyIn "micro-optim" (String.mk (pyLower code.data)) ||
    (pyIn "optimiz" (String.mk (pyLower code.data)) && pyIn "TODO" (String.mk (pyLower code.data)))

/- Check 22, line 304: str.count comparisons -/
def cond22 (code : String) : Bool :=
  decide (5 < pyCount code "if") && decide (3 < pyCount code "else") &&
    decide (4 < pyCount code "&&" + pyCount code "||")

/- Check 23, line 314, re.DOTALL with a backreference: (.{20,})\s*\n.*\1
Bespoke: a block of at least 20 arbitrary characters, then whitespace, a
newline, and the same block occurring anywhere later (the dot matches every
character under DOTALL). -/
def cond23 (code : String) : Bool :=
  let cs := code.data
  cs.any (· == '\n') &&
    (List.range cs.length).any fun i =>
      (List.range (cs.length + 1)).any fun l =>
        decide (20 ≤ l) && decide (i + l ≤ cs.length) &&
          (let b := (cs.drop i).take l
           let rest := cs.drop (i + l)
           let wsRun := rest.takeWhile isPyWs
           (List.range wsRun.length).any fun j =>
             wsRun.get? j == some '\n' && infixOfL b (rest.drop (j + 1)))

/- Check 24, line 324: void\s+(doStuff|processData|handle|method\d+)\s*\( -/
def re24 : RE := cat [lit "void", wsPlus,
  alt (lit "doStuff") (alt (lit "processData") (alt (lit "handle") (cat [lit "method", digitPlus]))),
  wsStar, chr '(']
def cond24 (code : String) : Bool := reSearch re24 code.data

/- Check 25, line 334: class\s+(Manager|Helper|Util)\b and public count -/
def re25 : RE := cat [lit "class", wsPlus, alt (lit "Manager") (alt (lit "Helper") (lit "Util"))]
def cond25 (code : String) : Bool :=
  searchBnd re25 false true code.data && decide (10 < pyCount code "public")

/- Check 26, line 344 (on code_lower): (save|load|print|validate).*(save|load|print|validate) -/
def re26alt : RE := alt (lit "save") (alt (lit "load") (alt (lit "print") (lit "validate")))
def re26 : RE := cat [re26alt, star anyNoNl, re26alt]
def cond26 (code : String) : Bool := reSearch re26 (pyLower code.data)

/- Check 27, line 354: new\s+[A-Z]\w+\s*\( and .getInstance( in code -/
def re27 : RE := cat [lit "new", wsPlus, cls isUpperC, wordPlus, wsStar, chr '(']
def cond27 (code : String) : Bool := reSearch re27 code.data && pyIn ".getInstance(" code

/- Check 28, line 364: code_lower.count(static) > 5 -/
def cond28 (code : String) : Bool := decide (5 < pyCount (String.mk (pyLower code.data)) "static")

/- Check 29, line 374: class\s+\w+\s+extends\s+\w+ and implements not in code -/
def re29 : RE := cat [lit "class", wsPlus, wordPlus, wsPlus, lit "extends", wsPlus, wordPlus]
def cond29 (code : String) : Bool := reSearch re29 code.data && !pyIn "implements" code

/- Check 30, line 384: @Override in code and @Override\s+public\s+\w+\s+\w+\( and super. not in code -/
def re30 : RE := cat [lit "@Override", wsPlus, lit "public", wsPlus, wordPlus, wsPlus, wordPlus, chr '(']
def cond30 (code : String) : Bool :=
  pyIn "@Override" code && reSearch re30 code.data && !pyIn "super." code

/- Check 31, line 394: switch\s*\([^)]*\)\s*\{([^}]*)\bcase\b[^:]*:[^b]*\n\s*case\b
Bespoke because of the two inner word boundaries. After the opening brace a
stretch without a closing brace, a word-bounded case, everything up to the
first colon (the class [^:] cannot cross it), then a newline preceded only
by characters that are not b, optional whitespace, and a second case. -/
def reSwitchHead : RE := cat [lit "switch", wsStar, chr '(', star (cls (· != ')')), chr ')', wsStar, chr lbrace]
def cond31 (code : String) : Bool :=
  let cs := code.data
  cs.any (· == '\n') &&
    (List.range (cs.length + 1)).any fun i =>
      (lensFrom reSwitchHead (cs.drop i)).any fun l =>
        let e := i + l
        (List.range (cs.length + 1 - e)).any fun d =>
          let j := e + d
          ((cs.drop e).take d).all (· != rbrace) &&
            (match (cs.drop (j - 1)).head? with
             | some pc => !isWordC pc
             | none => false) &&
            ("case".data).isPrefixOf (cs.drop j) &&
            (match (cs.drop (j + 4)).head? with
             | some nc => !isWordC nc
             | none => true) &&
            (let afterCase := cs.drop (j + 4)
             let toColon := afterCase.takeWhile (· != ':')
             let afterColon := afterCase.drop (toColon.length + 1)
             decide (toColon.length < afterCase.length) &&
               (List.range afterColon.length).any fun p =>
                 (afterColon.take p).all (· != 'b') && afterColon.get? p == some '\n' &&
                   (let afterNl := afterColon.drop (p + 1)
                    let wsRun := afterNl.takeWhile isPyWs
                    (List.range (wsRun.length + 1)).any fun w =>
                      ("case".data).isPrefixOf (afterNl.drop w) &&
                        (match (afterNl.drop (w + 4)).head? with
                         | some nc2 => !isWordC nc2
                         | none => true)))

/- Check 32, line 404: for\s*\(\s*\w+\s*:\s*\w+\s*\)\s*\{[^}]*\.\s*(add|remove|put)\s*\( -/
def re32 : RE := cat [lit "for", wsStar, chr '(', wsStar, wordPlus, wsStar, chr ':', wsStar,
  wordPlus, wsStar, chr ')', wsStar, chr lbrace, star (cls (· != rbrace)), chr '.', wsStar,
  alt (lit "add") (alt (lit "remove") (lit "put")), wsStar, chr '(']
def cond32 (code : String) : Bool := reSearch re32 code.data

/- Check 33, line 414: Map<\s*List|Map<\s*Set|Map<\s*ArrayList -/
def re33 : RE := alt (cat [lit "Map<", wsStar, lit "List"])
  (alt (cat [lit "Map<", wsStar, lit "Set"]) (cat [lit "Map<", wsStar, lit "ArrayList"]))
def cond33 (code : String) : Bool := reSearch re33 code.data

/- Check 34, line 424 -/
def cond34 (code : String) : Bool :=
  (pyIn "equals(" code && !pyIn "hashCode(" code) || (pyIn "hashCode(" code && !pyIn "equals(" code)

/- Check 35, line 434 -/
def cond35 (code : String) : Bool :=
  pyIn "Thread" code && !pyIn "synchronized" code && !pyIn "Executor" code

/- Check 36, line 444: count\s*\+\+|counter\s*\+\+ and synchronized not in code -/
def re36 : RE := alt (cat [lit "count", wsStar, lit "++"]) (cat [lit "counter", wsStar, lit "++"])
def cond36 (code : String) : Bool := reSearch re36 code.data && !pyIn "synchronized" code

/- Check 37, line 454: findall synchronized\s*\(\s*\w+\s*\) nonempty and count > 1 -/
def re37 : RE := cat [lit "synchronized", wsStar, chr '(', wsStar, wordPlus, wsStar, chr ')']
def cond37 (code : String) : Bool :=
  reSearch re37 code.data && decide (1 < pyCount code "synchronized")

/- Check 38, line 464 -/
def cond38 (code : String) : Bool :=
  pyIn "volatile" code && !pyIn "synchronized" code && !pyIn "Atomic" code

/- Check 39, line 474: (Thread\.sleep|wait\() and public\s+static\s+void\s+main -/
def re39a : RE := alt (lit "Thread.sleep") (lit "wait(")
def re39b : RE := cat [lit "public", wsPlus, lit "static", wsPlus, lit "void", wsPlus, lit "main"]
def cond39 (code : String) : Bool := reSearch re39a code.data && reSearch re39b code.data

/- Check 40, line 484 -/
def cond40 (code : String) : Bool := pyIn "ExecutorService" code && !pyIn "shutdown" code

/- Check 41, line 494 -/
def cond41 (code : String) : Bool := pyIn "Thread.sleep" code && pyIn "join(" code

/- Check 42, line 504 -/
def cond42 (code : String) : Bool :=
  pyIn "Scanner" code && pyIn "nextLine" code && !pyIn "if" code

/- Check 43, line 514: HttpURLConnection|URL\s*\( and validate not in code_lower -/
def re43 : RE := alt (lit "HttpURLConnection") (cat [lit "URL", wsStar, chr '('])
def cond43 (code : String) : Bool :=
  reSearch re43 code.data && !pyIn "validate" (String.mk (pyLower code.data))

/- Check 44, line 524: new\s+File\s*\(\s*".*"\s*\) -/
def re44 : RE := cat [lit "new", wsPlus, lit "File", wsStar, chr '(', wsStar, chr quoteC,
  star anyNoNl, chr quoteC, wsStar, chr ')']
def cond44 (code : String) : Bool := reSearch re44 code.data

/- Check 45, line 534: the regex for two literal backslashes, or the
four-character Python literal C colon backslash backslash as a substring. -/
def twoBackslashes : String := String.mk [bslash, bslash]
def cond45 (code : String) : Bool :=
  reSearch (lit twoBackslashes) code.data || pyIn ("C:" ++ twoBackslashes) code

/- Check 46, line 544 -/
def cond46 (code : String) : Bool :=
  pyIn "TODO" code && pyIn "edge" (String.mk (pyLower code.data))

/- Check 47, line 554: (for|while)\s*\([^)]*length[^)]*\) and if not in code -/
def re47 : RE := cat [alt (lit "for") (lit "while"), wsStar, chr '(', star (cls (· != ')')),
  lit "length", star (cls (· != ')')), chr ')']
def cond47 (code : String) : Bool := reSearch re47 code.data && !pyIn "if" code

/- Check 48, line 564: System\.out\.println\("Error"\) -/
def errPrintStr : String :=
  "System.out.println(" ++ String.mk [quoteC] ++ "Error" ++ String.mk [quoteC] ++ ")"
def cond48 (code : String) : Bool := reSearch (lit errPrintStr) code.data

/- Check 49, line 574 (both searches on code_lower):
password|secret|token and System\.out\.println|logger\.info|log\.info -/
def re49a : RE := alt (lit "password") (alt (lit "secret") (lit "token"))
def re49b : RE := alt (lit "System.out.println") (alt (lit "logger.info") (lit "log.info"))
def cond49 (code : String) : Bool :=
  reSearch re49a (pyLower code.data) && reSearch re49b (pyLower code.data)

/- Check 50, line 584, re.DOTALL: for\s*\(.*\)\s*\{[^}]*StringBuilder -/
def re50 : RE := cat [lit "for", wsStar, chr '(', star anyDotAll, chr ')', wsStar, chr lbrace,
  star (cls (· != rbrace)), lit "StringBuilder"]
def cond50 (code : String) : Bool := reSearch re50 code.data

/- Check 51, line 594 -/
def cond51 (code : String) : Bool :=
  !pyIn "JUnit" code && !pyIn "@Test" code && !pyIn "assert" (String.mk (pyLower code.data))

/- Check 52, line 604 -/
def cond52 (code : String) : Bool :=
  pyIn "hardcode" (String.mk (pyLower code.data)) || pyIn "specific case" (String.mk (pyLower code.data))

/- Best-practice check 1, line 618: \b(int|String|double|float|long)\s+[A-Z]{2,}\b -/
def reBp1 : RE := cat [alt (lit "int") (alt (lit "String") (alt (lit "double") (alt (lit "float") (lit "long")))),
  wsPlus, cls isUpperC, cls isUpperC, star (cls isUpperC)]
def condBp1 (code : String) : Bool := searchBnd reBp1 true true code.data

/- BP 2, line 628: tab in code or \s{8,} -/
def reBp2 : RE := cat [rep 8 (cls isPyWs), star (cls isPyWs)]
def condBp2 (code : String) : Bool := pyIn "\t" code || reSearch reBp2 code.data

/- BP 3, line 638: \b(int|double|String)\s+[ijk]\b -/
def reBp3 : RE := cat [alt (lit "int") (alt (lit "double") (lit "String")), wsPlus,
  cls (fun c => c == 'i' || c == 'j' || c == 'k')]
def condBp3 (code : String) : Bool := searchBnd reBp3 true true code.data

/- BP 4, line 648: void\s+\w+\s*\([^)]*\)\s*\{(.|\n){200,}\}
The tail of at least 200 arbitrary characters followed by a closing brace
is a closing brace at distance at least 200 past some match of the head. -/
def reBp4Head : RE := cat [lit "void", wsPlus, wordPlus, wsStar, chr '(',
  star (cls (· != ')')), chr ')', wsStar, chr lbrace]
def gapClose (head : RE) (gap : Nat) (code : String) : Bool :=
  let cs := code.data
  (List.range (cs.length + 1)).any fun i =>
    (lensFrom head (cs.drop i)).any fun l =>
      (cs.drop (i + l + gap)).any (· == rbrace)
def condBp4 (code : String) : Bool := gapClose reBp4Head 200 code

/- BP 5, line 658: public\s+class\s+\w+.*\{(.|\n){400,}\} -/
def reBp5Head : RE := cat [lit "public", wsPlus, lit "class", wsPlus, wordPlus,
  star anyNoNl, chr lbrace]
def condBp5 (code : String) : Bool := gapClose reBp5Head 400 code

/- BP 6, line 668, backreference, no DOTALL: (.{30,})\n.*\1
A newline-free block of at least 30 characters directly followed by a
newline, recurring inside the line that follows (neither the dot nor the
block can cross a newline). -/
def condBp6 (code : String) : Bool :=
  let cs := code.data
  cs.any (· == '\n') &&
    (List.range cs.length).any fun i =>
      (List.range (cs.length + 1)).any fun l =>
        decide (30 ≤ l) &&
          (let b := (cs.drop i).take l
           decide (b.length = l) && b.all (· != '\n') &&
             (match cs.drop (i + l) with
              | c :: rest => c == '\n' && infixOfL b (rest.takeWhile (· != '\n'))
              | [] => false))

/- BP 7, line 678 -/
def condBp7 (code : String) : Bool := pyIn "extends" code && decide (1 < pyCount code "extends")

/- BP 8, line 688 -/
def reBp8 : RE := alt (lit "ArrayList<") (alt (lit "HashMap<") (lit "HashSet<"))
def condBp8 (code : String) : Bool :=
  reSearch reBp8 code.data && !pyIn "List<" code && !pyIn "Map<" code

/- BP 9, line 698: class\s+\w+\s*\{[^{]*\b(\w+)\s+\w+\s*;
Bespoke for the inner word boundary: a match of the head, a stretch free of
opening braces, a position preceded by a non-word character, and the tail. -/
def reBp9Head : RE := cat [lit "class", wsPlus, wordPlus, wsStar, chr lbrace]
def reBp9Tail : RE := cat [wordPlus, wsPlus, wordPlus, wsStar, chr ';']
def condBp9 (code : String) : Bool :=
  let cs := code.data
  (List.range (cs.length + 1)).any fun i =>
    (lensFrom reBp9Head (cs.drop i)).any fun l =>
      let e := i + l
      (List.range (cs.length + 1 - e)).any fun d =>
        let j := e + d
        ((cs.drop e).take d).all (· != lbrace) &&
          (match (cs.drop (j - 1)).head? with
           | some pc => !isWordC pc
           | none => false) &&
          matchesFrom reBp9Tail (cs.drop j)

/- BP 10, line 708 -/
def condBp10 (code : String) : Bool :=
  pyIn "public" code && pyIn "static" code && !reSearch (lit "final") code.data

/- BP 11, line 718: \b(18|65|100|365|60|24|1024)\b -/
def reBp11 : RE := alt (lit "18") (alt (lit "65") (alt (lit "100") (alt (lit "365")
  (alt (lit "60") (alt (lit "24") (lit "1024"))))))
def condBp11 (code : String) : Bool := searchBnd reBp11 true true code.data

/- BP 12, line 728 -/
def condBp12 (code : String) : Bool := pyIn "catch" code && pyIn "printStackTrace" code

/- BP 13, line 738 -/
def condBp13 (code : String) : Bool := pyIn "catch (Exception" code

/- BP 14, line 748 -/
def reBp14 : RE := cat [lit "new", wsPlus,
  alt (lit "FileInputStream") (alt (lit "FileOutputStream") (alt (lit "BufferedReader") (lit "Scanner"))),
  wsStar, chr '(']
def condBp14 (code : String) : Bool := reSearch reBp14 code.data && !pyIn "try (" code

/- BP 15, line 758 -/
def condBp15 (code : String) : Bool :=
  (pyIn "Scanner" code || pyIn "BufferedReader" code) &&
    !pyIn "validate" (String.mk (pyLower code.data))

/- BP 16, line 768 -/
def condBp16 (code : String) : Bool :=
  !pyIn "assert" (String.mk (pyLower code.data)) && !pyIn "IllegalArgumentException" code

/- BP 17, line 778 -/
def condBp17 (code : String) : Bool := !pyIn "@Test" code && !pyIn "JUnit" code

/- BP 18, line 788 -/
def condBp18 (code : String) : Bool :=
  !pyIn "edge" (String.mk (pyLower code.data)) && !pyIn "boundary" (String.mk (pyLower code.data))

/- BP 19, line 798 -/
def condBp19 (code : String) : Bool := !pyIn "git" (String.mk (pyLower code.data))

/- BP 20, line 808 (on code_lower): //\s*complicated -/
def reBp20 : RE := cat [lit "//", wsStar, lit "complicated"]
def condBp20 (code : String) : Bool := reSearch reBp20 (pyLower code.data)

/- BP 21, line 818 -/
def condBp21 (code : String) : Bool := decide (20 < pyCount code "//")

/- BP 22, line 828: [^\n]{120,}, a window of 120 characters without newline -/
def condBp22 (code : String) : Bool :=
  let cs := code.data
  (List.range (cs.length + 1)).any fun i =>
    decide (i + 120 ≤ cs.length) && ((cs.drop i).take 120).all (· != '\n')

/- BP 23, line 838 -/
def condBp23 (code : String) : Bool := pyIn "System.out.println" code

/- BP 24, line 848 -/
def emptyCallArg : String := String.mk [quoteC, quoteC]
def condBp24 (code : String) : Bool :=
  pyIn ("log.info(" ++ emptyCallArg ++ ")") code || pyIn ("logger.info(" ++ emptyCallArg ++ ")") code

/- BP 25, line 858 -/
def condBp25 (code : String) : Bool := pyIn "TODO optimize" code

/- BP 26, line 868 -/
def condBp26 (code : String) : Bool := pyIn "profile" (String.mk (pyLower code.data))

/- BP 27, line 878 -/
def condBp27 (code : String) : Bool := pyIn "ArrayList" code && pyIn "insert(0" code

/- BP 28, line 888 -/
def condBp28 (code : String) : Bool :=
  !pyIn "final class" code && !pyIn "record " code && !pyIn "immutable" (String.mk (pyLower code.data))

/- BP 29, line 898 -/
def condBp29 (code : String) : Bool := pyIn "equals(" code && pyIn "hashCode(" code

/- BP 30, line 908 -/
def condBp30 (code : String) : Bool := pyIn "interface" code && pyIn "implements" code

/- BP 31, line 918 -/
def condBp31 (code : String) : Bool := pyIn "new " code && !pyIn "interface" code

/- BP 32, line 928: class\s+\w+\s*\{(.|\n){500,}\} -/
def condBp32 (code : String) : Bool := gapClose reBp9Head 500 code

/- BP 33, line 938 -/
def condBp33 (code : String) : Bool :=
  pyIn "null" (String.mk (pyLower code.data)) && !pyIn "Optional" code

/- BP 34, line 948 -/
def condBp34 (code : String) : Bool := pyIn "Optional<" code

/- BP 35, line 958: code.count(if) > 4 and count of opening minus closing braces > 3,
an integer comparison in Python -/
def condBp35 (code : String) : Bool :=
  decide (4 < pyCount code "if") &&
    decide ((3 : Int) < (pyCount code (String.mk [lbrace]) : Int) - (pyCount code (String.mk [rbrace]) : Int))

/- BP 36, line 968 -/
def condBp36 (code : String) : Bool := pyIn "return" code && pyIn "if" code

/- BP 37, line 978: public\s+(int|String|double|float|long|List<|Map<|Set<)\s+\w+\s*; -/
def reBp37 : RE := cat [lit "public", wsPlus,
  alt (lit "int") (alt (lit "String") (alt (lit "double") (alt (lit "float") (alt (lit "long")
    (alt (lit "List<") (alt (lit "Map<") (lit "Set<"))))))),
  wsPlus, wordPlus, wsStar, chr ';']
def condBp37 (code : String) : Bool := reSearch reBp37 code.data

/- BP 38, line 988: new\s+\w+\s*\( and @Autowired not in code -/
def reBp38 : RE := cat [lit "new", wsPlus, wordPlus, wsStar, chr '(']
def condBp38 (code : String) : Bool := reSearch reBp38 code.data && !pyIn "@Autowired" code

/- BP 39, line 998 -/
def condBp39 (code : String) : Bool := pyIn "@Autowired" code || pyIn "Injector" code

/- BP 40, line 1008 -/
def condBp40 (code : String) : Bool := decide (3 < pyCount (String.mk (pyLower code.data)) "static")

/- BP 41, line 1018 -/
def condBp41 (code : String) : Bool := pyIn "new Scanner(System.in)" code

/- BP 42, line 1028 -/
def condBp42 (code : String) : Bool := pyIn "package " code && decide (3 < pyCount code "class ")

/- BP 43, line 1038: Controller|Service|Repository -/
def reBp43 : RE := alt (lit "Controller") (alt (lit "Service") (lit "Repository"))
def condBp43 (code : String) : Bool := reSearch reBp43 code.data

/- BP 44, line 1048 -/
def condBp44 (code : String) : Bool := pyIn "JFrame" code && pyIn "calculate" (String.mk (pyLower code.data))

/- BP 45, line 1058 -/
def condBp45 (code : String) : Bool := pyIn "Thread" code || pyIn "ExecutorService" code

/- BP 46, line 1068 -/
def condBp46 (code : String) : Bool := pyIn "ConcurrentHashMap" code || pyIn "CopyOnWriteArrayList" code

/- BP 47, line 1078: public\s+(class|interface|enum)\s+\w+ and /** not in code -/
def reBp47 : RE := cat [lit "public", wsPlus, alt (lit "class") (alt (lit "interface") (lit "enum")),
  wsPlus, wordPlus]
def condBp47 (code : String) : Bool := reSearch reBp47 code.data && !pyIn "/**" code

/- BP 48, line 1088: get\w+\s*\([^)]*\)\s*\{[^}]*set\w+\( -/
def reBp48 : RE := cat [lit "get", wordPlus, wsStar, chr '(', star (cls (· != ')')), chr ')',
  wsStar, chr lbrace, star (cls (· != rbrace)), lit "set", wordPlus, chr '(']
def condBp48 (code : String) : Bool := reSearch reBp48 code.data

/- BP 49, line 1098 -/
def condBp49 (code : String) : Bool :=
  pyIn "TODO remove" code || pyIn "deprecated" (String.mk (pyLower code.data))

/- BP 50, line 1108 -/
def condBp50 (code : String) : Bool := pyIn "review" (String.mk (pyLower code.data))

/- BP 51, line 1118 -/
def condBp51 (code : String) : Bool := pyIn "refactor" (String.mk (pyLower code.data))

/-- The four keyword checks named for the theorems about them. -/
def bp16Check : SmellCheck :=
  ⟨condBp16, ⟨"bp_16_fail_fast", "✅ BP16: Fail Fast", "Failing fast simplifies debugging and avoids bad state.", "Use checks and throw exceptions early.", "Validate preconditions at method start"⟩⟩

def bp17Check : SmellCheck :=
  ⟨condBp17, ⟨"bp_17_unit_tests", "✅ BP17: Unit Tests", "Tests guard against regressions.", "Write JUnit tests for core logic.", "Test both happy path and failures"⟩⟩

def bp18Check : SmellCheck :=
  ⟨condBp18, ⟨"bp_18_edge_tests", "✅ BP18: Edge Cases", "Edge-case tests increase robustness.", "Add tests for min, max, empty, null.", "Cover corner cases in tests"⟩⟩

def bp19Check : SmellCheck :=
  ⟨condBp19, ⟨"bp_19_version_control", "✅ BP19: Version Control", "Version control is critical for team work.", "Use Git commits with meaningful messages.", "Track changes in repository"⟩⟩

/-! The battery of checks of detect_code_smells, in source order. Each
entry pairs the translated condition with the appended dictionary
(fields: id, title, explanation, fix, detail). The table is split in four
for elaboration speed; smellChecks is their concatenation. -/

def smellChecksA : List SmellCheck := [
  ⟨cond01, ⟨"1_off_by_one", "📏 1. Off-by-One Error", "Loop may run one time too many or too few. Use i < length for arrays/lists.", "for (int i = 0; i < array.length; i++)", "Check loop bounds around length/size"⟩⟩,
  ⟨cond02, ⟨"2_infinite_loop", "🔄 2. Infinite Loop", "Loop runs forever without proper exit condition.", "Use explicit condition or break; ensure termination.", "Check while(true) or for(;;) usage"⟩⟩,
  ⟨cond03, ⟨"3_wrong_loop", "🔀 3. Loop Condition", "Loop bounds or step may not match requirement.", "Confirm start, end and increment (e.g., i++, i+=2).", "Verify loop condition and increment"⟩⟩,
  ⟨cond04, ⟨"4_wrong_op", "⚠️ 4. Wrong Operator", "Check operator usage for comparisons and assignments.", "Use == for primitives, .equals() for objects.", "Possible misuse of ==, != or = vs =="⟩⟩,
  ⟨cond05, ⟨"5_string_equals", "🚨 5. String == Comparison", "Using == compares references instead of content for Strings.", "Use s1.equals(s2) or s1.equalsIgnoreCase(s2).", "String content comparison should use equals()"⟩⟩,
  ⟨cond06, ⟨"6_int_div", "➗ 6. Integer Division", "Integer division truncates decimal part (3/2 = 1).", "Use 3.0/2 or cast to double/float.", "Ensure correct type for division"⟩⟩,
  ⟨cond07, ⟨"7_float_prec", "🔢 7. Float Precision", "Exact equality with floating-point is unreliable.", "Use BigDecimal or compare with tolerance.", "Avoid == with non-integers like 0.1"⟩⟩,
  ⟨cond08, ⟨"8_op_prec", "📊 8. Operator Order", "Complex expressions may be confusing without parentheses.", "Use explicit parentheses (a + b) * c.", "Clarify operator precedence"⟩⟩,
  ⟨cond09, ⟨"9_var_scope", "📍 9. Variable Scope", "Variables may be declared or used in wrong scope.", "Declare variables in the smallest necessary scope.", "Check variable lifetimes inside blocks"⟩⟩,
  ⟨cond10, ⟨"10_shadow", "🌑 10. Variable Shadowing", "Inner variable hides outer variable with same name.", "Rename inner variable or avoid reuse.", "Shadowing can cause subtle bugs"⟩⟩,
  ⟨cond11, ⟨"11_uninit", "🎭 11. Uninitialized Boolean", "Boolean may be read before being initialized.", "Initialize boolean (e.g., boolean flag = false;).", "Check default values and initialization"⟩⟩,
  ⟨cond12, ⟨"12_magic", "🎯 12. Magic Numbers", "Hard-coded constants reduce readability and flexibility.", "Use named constants (final int ADULT_AGE = 18;).", "Replace numeric literals with constants"⟩⟩,
  ⟨cond13, ⟨"13_null_case", "❓ 13. Null Handling", "Method calls without null checks can cause NullPointerException.", "Check for null before dereferencing.", "Add if (obj != null) or use Optional"⟩⟩,
  ⟨cond14, ⟨"14_no_except", "⚠️ 14. Missing Exception Handling", "try block without proper catch/finally can hide errors.", "Add catch or finally to handle exceptions.", "Ensure all try have catch/finally"⟩⟩,
  ⟨cond15, ⟨"15_generic_ex", "🎣 15. Generic Exception", "Catching Exception hides specific error types.", "Catch more specific exceptions (e.g., IOException).", "Use fine-grained exception handling"⟩⟩,
  ⟨cond16, ⟨"16_swallow_ex", "🤐 16. Swallowed Exception", "Exceptions are caught but not logged or handled.", "Log, rethrow, or handle the exception meaningfully.", "Empty catch blocks hide problems"⟩⟩,
  ⟨cond17, ⟨"17_resource_leak", "💧 17. Resource Leak", "Opened resources are not closed properly.", "Use try-with-resources or ensure close() in finally.", "Check streams, readers, connections"⟩⟩,
  ⟨cond18, ⟨"18_memory_leak", "🧠 18. Memory Leak Risk", "Static collections can grow unbounded and hold references.", "Clear collections or avoid long-lived static state.", "Review lifecycle of static collections"⟩⟩,
  ⟨cond19, ⟨"19_inefficient_ds", "🐢 19. Inefficient Data Structure", "ArrayList.contains() is O(n); may be slow for large data.", "Use HashSet or Map for faster lookup.", "Choose structure based on access pattern"⟩⟩,
  ⟨cond20, ⟨"20_wrong_algo", "📉 20. Suboptimal Algorithm", "Inefficient algorithms impact performance on big inputs.", "Use better algorithms (e.g., quicksort, mergesort).", "Avoid O(n^2) where O(n log n) exists"⟩⟩,
  ⟨cond21, ⟨"21_premature_opt", "🧪 21. Premature Optimization", "Optimizing before measuring can complicate code.", "Write clear code first, optimize after profiling.", "Focus on correctness and clarity first"⟩⟩,
  ⟨cond22, ⟨"22_complex_logic", "🧩 22. Overcomplicated Logic", "Too many conditions make code hard to read and test.", "Split into smaller methods or use guard clauses.", "Refactor deep, complex conditions"⟩⟩,
  ⟨cond23, ⟨"23_duplication", "📚 23. Code Duplication", "Duplicate logic increases maintenance cost.", "Extract common logic into reusable methods.", "DRY: Don\x27t Repeat Yourself"⟩⟩,
  ⟨cond24, ⟨"24_poor_method_name", "🏷️ 24. Poor Method Name", "Generic names do not express intent.", "Use descriptive names like calculateTotal, validateUser.", "Name should show method purpose"⟩⟩,
  ⟨cond25, ⟨"25_poor_class_design", "🏗️ 25. Poor Class Design", "God classes handle too many responsibilities.", "Split class into focused smaller classes.", "Avoid all-in-one manager/helper classes"⟩⟩,
  ⟨cond26, ⟨"26_srp_violation", "🧱 26. SRP Violation", "Class or method handles unrelated responsibilities.", "Separate concerns into different classes/methods.", "Each unit should have one reason to change"⟩⟩]

def smellChecksB : List SmellCheck := [
  ⟨cond27, ⟨"27_tight_coupling", "🔗 27. Tight Coupling", "Classes depend directly on concrete implementations.", "Use interfaces/abstractions or dependency injection.", "Reduce direct new of dependencies"⟩⟩,
  ⟨cond28, ⟨"28_static_abuse", "⚡ 28. Excessive Static Use", "Too many static members break OO design and testability.", "Use instance fields and dependency injection.", "Static state is hard to test and maintain"⟩⟩,
  ⟨cond29, ⟨"29_inheritance_overuse", "🧬 29. Inheritance Misuse", "Inheritance used where composition may be better.", "Prefer composition over inheritance for reuse.", "Use has-a instead of is-a when appropriate"⟩⟩,
  ⟨cond30, ⟨"30_bad_override", "🔁 30. Incorrect Override", "Override may ignore required behavior of superclass.", "Call super.method() when necessary or document change.", "Verify contract of overridden methods"⟩⟩,
  ⟨cond31, ⟨"31_switch_break", "🧯 31. Missing break in switch", "Missing break causes fall-through to next case.", "Add break at the end of each case unless intentional.", "Review switch cases for fall-through"⟩⟩,
  ⟨cond32, ⟨"32_concurrent_mod", "🌀 32. Modify While Iterating", "Changing collection during iteration can throw ConcurrentModificationException.", "Use iterator.remove() or collect changes separately.", "Avoid structural changes inside for-each"⟩⟩,
  ⟨cond33, ⟨"33_mutable_key", "🔑 33. Mutable Map Keys", "Mutable keys can break Map contracts.", "Use immutable keys (String, Integer, custom immutable).", "Avoid mutable objects as keys"⟩⟩,
  ⟨cond34, ⟨"34_equals_hash", "⚖️ 34. equals/hashCode", "Overriding only one breaks collections behavior.", "Override equals() and hashCode() together.", "Maintain consistency for hashed collections"⟩⟩,
  ⟨cond35, ⟨"35_thread_safety", "🧵 35. Thread Safety", "Shared mutable state across threads can cause bugs.", "Use synchronization, locks or thread-safe structures.", "Identify shared data in multithreaded code"⟩⟩,
  ⟨cond36, ⟨"36_race_condition", "🏎️ 36. Race Condition", "Non-atomic updates from multiple threads cause inconsistent state.", "Use AtomicInteger, synchronization or locks.", "Protect shared counters"⟩⟩,
  ⟨cond37, ⟨"37_deadlock", "⛓️ 37. Deadlock Risk", "Multiple locks acquired in different orders can deadlock.", "Define consistent locking order; minimize nested locks.", "Review nested synchronized blocks"⟩⟩,
  ⟨cond38, ⟨"38_bad_sync", "🧷 38. Improper Synchronization", "volatile alone may not guarantee atomicity.", "Use proper synchronization or concurrent utilities.", "Ensure compound actions are atomic"⟩⟩,
  ⟨cond39, ⟨"39_blocking_main", "⏱️ 39. Blocking Main Thread", "Blocking main or UI thread freezes the application.", "Move blocking operations to background threads.", "Avoid sleep/wait on main/UI threads"⟩⟩,
  ⟨cond40, ⟨"40_bad_concurrency_utils", "🧰 40. Concurrency Utility Misuse", "ExecutorService not shutdown causes resource leak.", "Call shutdown()/shutdownNow() when done.", "Always terminate executors"⟩⟩,
  ⟨cond41, ⟨"41_thread_order", "🔀 41. Thread Order Assumption", "Relying on timing for order is fragile.", "Use join(), latches, barriers instead of arbitrary sleep.", "Use synchronization primitives for ordering"⟩⟩,
  ⟨cond42, ⟨"42_no_input_validation", "🛂 42. No Input Validation", "User input used without checks may cause errors or security issues.", "Validate format, range and sanitize input.", "Add checks after reading from Scanner"⟩⟩,
  ⟨cond43, ⟨"43_trust_external", "🌐 43. Trusting External Data", "Network/file data can be malformed or malicious.", "Validate and sanitize all external data.", "Add checks for responses and payloads"⟩⟩,
  ⟨cond44, ⟨"44_file_path", "📁 44. Hard-coded File Path", "Absolute or hard-coded paths reduce portability.", "Use relative paths or configuration.", "Avoid environment-specific paths"⟩⟩,
  ⟨cond45, ⟨"45_platform_dependent", "🖥️ 45. Platform Dependent Code", "OS-specific paths or separators break portability.", "Use File.separator or Paths API.", "Remove Windows-only assumptions"⟩⟩,
  ⟨cond46, ⟨"46_edge_cases", "🧊 46. Ignored Edge Cases", "Missing edge-case handling causes crashes or bugs.", "Handle empty, null, min/max, and boundary inputs.", "Finish TODOs for edge conditions"⟩⟩,
  ⟨cond47, ⟨"47_bounds_check", "📐 47. Missing Bounds Check", "No validation of index ranges can cause exceptions.", "Validate indexes before array/list access.", "Check 0 <= index < length"⟩⟩,
  ⟨cond48, ⟨"48_poor_error_msg", "📢 48. Poor Error Messages", "Generic messages make debugging difficult.", "Include context details in error messages.", "Describe what went wrong and where"⟩⟩,
  ⟨cond49, ⟨"49_sensitive_logging", "🔐 49. Logging Sensitive Data", "Sensitive info in logs is a security risk.", "Mask or avoid logging secrets.", "Remove credentials from logs"⟩⟩,
  ⟨cond50, ⟨"50_perf_bottleneck", "🚦 50. Performance Bottleneck Risk", "Heavy operations in large loops may be slow.", "Optimize hot paths after profiling.", "Beware nested loops and heavy work"⟩⟩,
  ⟨cond51, ⟨"51_no_tests", "🧪 51. No Unit Tests", "Lack of tests reduces confidence in changes.", "Add JUnit tests for key logic and edge cases.", "Start with tests for core methods"⟩⟩,
  ⟨cond52, ⟨"52_overfitting", "🎯 52. Overfitted Logic", "Logic tailored only to known examples may fail in general.", "Generalize rules and test with varied inputs.", "Avoid assumptions from few samples"⟩⟩]

def smellChecksC : List SmellCheck := [
  ⟨condBp1, ⟨"bp_1_naming_convention", "✅ BP1: Naming Conventions", "Variable names should follow camelCase, classes PascalCase.", "Rename to userName, totalAmount, etc.", "Maintain consistent naming style"⟩⟩,
  ⟨condBp2, ⟨"bp_2_clean_code", "✅ BP2: Readable Code", "Mixed indentation or long lines hurt readability.", "Use consistent indentation and line length.", "Format code with an auto-formatter"⟩⟩,
  ⟨condBp3, ⟨"bp_3_meaningful_names", "✅ BP3: Meaningful Names", "Single-letter names hide intent (outside simple loops).", "Use names like index, count, total.", "Explain purpose via naming"⟩⟩,
  ⟨condBp4, ⟨"bp_4_small_methods", "✅ BP4: Small Methods", "Very long methods are hard to read and test.", "Extract smaller helper methods.", "Aim for single responsibility per method"⟩⟩,
  ⟨condBp5, ⟨"bp_5_srp", "✅ BP5: SRP", "Large classes often mix responsibilities.", "Split into cohesive classes.", "One reason to change per class"⟩⟩,
  ⟨condBp6, ⟨"bp_6_dry", "✅ BP6: DRY", "Repeated code makes maintenance harder.", "Extract common code into methods.", "Refactor repeated blocks"⟩⟩,
  ⟨condBp7, ⟨"bp_7_composition", "✅ BP7: Composition", "Deep inheritance hierarchies are fragile.", "Use composition where suitable.", "Favor has-a relationships"⟩⟩,
  ⟨condBp8, ⟨"bp_8_interfaces", "✅ BP8: Program to Interfaces", "Using concrete types directly reduces flexibility.", "Declare as List, Map, Set types.", "Depend on abstractions"⟩⟩,
  ⟨condBp9, ⟨"bp_9_access_modifiers", "✅ BP9: Access Modifiers", "Fields without modifiers are package-private by default.", "Use private and provide getters/setters if needed.", "Encapsulate fields by default"⟩⟩,
  ⟨condBp10, ⟨"bp_10_mutable_state", "✅ BP10: Mutable State", "Global mutable state complicates reasoning.", "Use final where possible; avoid public mutable fields.", "Reduce shared state"⟩⟩,
  ⟨condBp11, ⟨"bp_11_constants", "✅ BP11: Constants", "Constants improve clarity and reuse.", "Introduce final static constants.", "Replace literals with named constants"⟩⟩,
  ⟨condBp12, ⟨"bp_12_exceptions", "✅ BP12: Exception Handling", "PrintStackTrace alone is not user-friendly.", "Log with context and rethrow or handle gracefully.", "Use logging framework for errors"⟩⟩,
  ⟨condBp13, ⟨"bp_13_specific_ex", "✅ BP13: Specific Exceptions", "Specific catches produce clearer handling.", "Catch IOException, SQLException, etc.", "Avoid broad Exception catches"⟩⟩,
  ⟨condBp14, ⟨"bp_14_try_with_resources", "✅ BP14: Try-with-Resources", "Automatic resource closing prevents leaks.", "Wrap resource in try (Resource r = …) \x7b \x7d.", "Prefer try-with-resources over finally-close"⟩⟩,
  ⟨condBp15, ⟨"bp_15_validate_input", "✅ BP15: Validate Input", "External inputs must be checked for correctness.", "Validate format, range, and content.", "Never trust external sources blindly"⟩⟩,
  bp16Check,
  bp17Check,
  bp18Check,
  bp19Check,
  ⟨condBp20, ⟨"bp_20_self_doc", "✅ BP20: Self-Documenting", "Complicated code indicates need for refactor.", "Refactor to clearer, simpler code.", "Code should explain itself"⟩⟩,
  ⟨condBp21, ⟨"bp_21_comments", "✅ BP21: Necessary Comments", "Too many comments may hide unclear code.", "Keep comments for why, not what.", "Prefer clear code to excessive comments"⟩⟩,
  ⟨condBp22, ⟨"bp_22_formatting", "✅ BP22: Formatting", "Very long lines are hard to read.", "Wrap lines and use formatter.", "Apply standard style (e.g., Google Java Style)"⟩⟩,
  ⟨condBp23, ⟨"bp_23_logging", "✅ BP23: Logging", "Print statements are not suitable for production logging.", "Use a logging framework (java.util.logging, Log4j).", "Replace prints with logger calls"⟩⟩,
  ⟨condBp24, ⟨"bp_24_meaningful_log", "✅ BP24: Meaningful Logging", "Empty or vague logs are not helpful.", "Include context and identifiers in logs.", "Log what happened and why"⟩⟩,
  ⟨condBp25, ⟨"bp_25_no_premature_opt", "✅ BP25: Avoid Premature Optimization", "Marking premature optimization TODOs can clutter code.", "Focus on clarity; optimize after profiling.", "Measure before optimizing"⟩⟩,
  ⟨condBp26, ⟨"bp_26_profile", "✅ BP26: Profile First", "Use profiler to find real bottlenecks.", "Optimize only hot spots.", "Avoid guessing performance issues"⟩⟩]

def smellChecksD : List SmellCheck := [
  ⟨condBp27, ⟨"bp_27_ds_choice", "✅ BP27: Data Structures", "ArrayList insert at front is costly.", "Use LinkedList or Deque for front insertions.", "Match structure to access pattern"⟩⟩,
  ⟨condBp28, ⟨"bp_28_immutable", "✅ BP28: Immutable Objects", "Immutable objects simplify reasoning and concurrency.", "Use final fields and no setters.", "Design value objects as immutable"⟩⟩,
  ⟨condBp29, ⟨"bp_29_equals_hash", "✅ BP29: equals/hashCode", "Both methods provided, check they match fields.", "Ensure same fields in equals and hashCode.", "Keep contract consistent"⟩⟩,
  ⟨condBp30, ⟨"bp_30_solid", "✅ BP30: SOLID", "Use interfaces and small focused classes.", "Apply SRP, OCP, LSP, ISP, DIP.", "Design with SOLID in mind"⟩⟩,
  ⟨condBp31, ⟨"bp_31_loose_coupling", "✅ BP31: Loose Coupling", "Direct instantiation overused.", "Use interfaces and dependency injection.", "Reduce hard-wired dependencies"⟩⟩,
  ⟨condBp32, ⟨"bp_32_cohesion", "✅ BP32: Cohesive Classes", "Very large classes often lack cohesion.", "Split responsibilities into separate classes.", "Group related behavior together"⟩⟩,
  ⟨condBp33, ⟨"bp_33_null_safety", "✅ BP33: Null Safety", "Null checks should be explicit and consistent.", "Use Optional or guard clauses.", "Avoid unexpected NullPointerExceptions"⟩⟩,
  ⟨condBp34, ⟨"bp_34_optional", "✅ BP34: Optional Usage", "Optional improves API clarity for nullable values.", "Use Optional for return types, not fields.", "Avoid overusing Optional in fields"⟩⟩,
  ⟨condBp35, ⟨"bp_35_deep_nesting", "✅ BP35: Avoid Deep Nesting", "Deeply nested code is hard to follow.", "Use early returns or extract methods.", "Flatten nested conditions"⟩⟩,
  ⟨condBp36, ⟨"bp_36_early_return", "✅ BP36: Early Returns", "Guard clauses can simplify flow.", "Return early on invalid state.", "Reduce nesting where possible"⟩⟩,
  ⟨condBp37, ⟨"bp_37_encapsulation", "✅ BP37: Encapsulation", "Public fields break invariants.", "Make fields private with accessors.", "Protect internal state"⟩⟩,
  ⟨condBp38, ⟨"bp_38_dependencies", "✅ BP38: Explicit Dependencies", "Hidden dependencies make code hard to test.", "Inject dependencies via constructor or DI.", "Avoid hidden global access"⟩⟩,
  ⟨condBp39, ⟨"bp_39_di", "✅ BP39: Dependency Injection", "DI frameworks decouple construction from use.", "Prefer constructor injection.", "Improve testability via DI"⟩⟩,
  ⟨condBp40, ⟨"bp_40_static_abuse", "✅ BP40: Avoid Static Abuse", "Too much static code harms flexibility.", "Refactor static util logic into services.", "Limit static to pure utilities/constants"⟩⟩,
  ⟨condBp41, ⟨"bp_41_testability", "✅ BP41: Testability", "Direct System.in usage makes testing harder.", "Inject input streams or use abstractions.", "Separate IO from logic"⟩⟩,
  ⟨condBp42, ⟨"bp_42_modular", "✅ BP42: Modular Code", "Split logic into multiple packages/modules.", "Group related classes into packages.", "Improve structure and reuse"⟩⟩,
  ⟨condBp43, ⟨"bp_43_layered", "✅ BP43: Layered Architecture", "Separate presentation, business, and data layers.", "Keep layers independent.", "Avoid leaking persistence to UI"⟩⟩,
  ⟨condBp44, ⟨"bp_44_separate_ui", "✅ BP44: Separate UI/Logic", "Business rules in UI classes reduce reuse.", "Move logic to service/domain classes.", "UI should delegate to services"⟩⟩,
  ⟨condBp45, ⟨"bp_45_concurrency", "✅ BP45: Explicit Concurrency", "Concurrent code needs clear synchronization.", "Use concurrent collections and proper locks.", "Document concurrency assumptions"⟩⟩,
  ⟨condBp46, ⟨"bp_46_thread_safe", "✅ BP46: Thread-safe Constructs", "Thread-safe collections simplify multithreading.", "Use concurrent variants when shared across threads.", "Pick appropriate concurrent structure"⟩⟩,
  ⟨condBp47, ⟨"bp_47_docs", "✅ BP47: API Documentation", "Public APIs should have Javadoc.", "Add Javadoc for public classes and methods.", "Explain behavior and contracts"⟩⟩,
  ⟨condBp48, ⟨"bp_48_side_effects", "✅ BP48: Side Effects", "Getters should not modify state.", "Separate queries from commands.", "Avoid surprising side effects"⟩⟩,
  ⟨condBp49, ⟨"bp_49_unused_code", "✅ BP49: Remove Unused Code", "Dead code confuses readers.", "Delete or archive unused methods/classes.", "Keep codebase lean"⟩⟩,
  ⟨condBp50, ⟨"bp_50_code_review", "✅ BP50: Code Review", "Reviews catch issues early.", "Use peer review or pull requests.", "Encourage regular reviews"⟩⟩,
  ⟨condBp51, ⟨"bp_51_refactor", "✅ BP51: Continuous Refactor", "Regular refactoring keeps code healthy.", "Refactor small pieces frequently.", "Avoid large, risky rewrites"⟩⟩]

def smellChecks : List SmellCheck :=
  smellChecksA ++ smellChecksB ++ smellChecksC ++ smellChecksD

/-- detect_code_smells, lines 84 to 1127: evaluate every check against the
raw source text, in order, collecting the dictionaries of those that fire. -/
def detect_code_smells (code : String) : List Diag :=
  (smellChecks.filter (fun c => c.cond code)).map (fun c => c.diag)

/-! ### parse_javac_output (lines 13 to 74) -/

/-- Modelled from the spec: the pattern table data/common_java_errors.json
is not among the sources; only its loader and consumers are. Following the
file-format contract of the spec (a mapping from rule id to pattern, title,
explanation and optional fix example, where a malformed pattern is skipped),
a rule is a record carrying its regex string and a flag compileOk that is
false exactly when re.compile(pattern) raises re.error. The theorems
quantify over the table; concrete instances use literal patterns (regex
strings without metacharacters), for which the flag-less search of the
source, re.compile(pat).search(output), succeeds exactly on substring
occurrence and returns the pattern itself as the match. -/
structure JRule where
  id : String
  pattern : String
  title : String
  explanation : String
  fix_example : String
  compileOk : Bool
deriving DecidableEq, Repr

/-- Search of a literal pattern: the leftmost match of a regex without
metacharacters exists on substring occurrence, and its group 0 is the
pattern itself. -/
def litSearch (pat : String) (text : String) : Option String :=
  if infixOfL pat.data text.data then some pat else none

/-- One entry of scored_matches (line 32): score, rule id, group 0 of the
match, and the rule record standing for the info dictionary. -/
structure Scored where
  score : Nat
  id : String
  matched : String
  rule : JRule
deriving DecidableEq, Repr

/-- Line 30: bonus words searched in the lowercased match. -/
def kwBonus (m : String) : Bool :=
  ["incompatible types", "cannot convert", "lossy conversion"].any
    (fun w => infixOfL w.data (pyLower m.data))

/-- Lines 20 to 39: score every rule whose pattern is non-empty, compiles,
and matches the output. -/
def scoredMatches (rules : List JRule) (output : String) : List Scored :=
  rules.filterMap fun r =>
    if r.pattern = "" then none
    else if !r.compileOk then none
    else
      match litSearch r.pattern output with
      | none => none
      | some m =>
        some ⟨r.pattern.length * 10 + (if kwBonus m then 100 else 0), r.id, m, r⟩

/-- Stable insertion into a list sorted by descending score: the new
element goes before the first element of not larger score, so elements of
equal score keep their original relative order. -/
def insertDesc (x : Scored) : List Scored → List Scored
  | [] => [x]
  | y :: ys => if y.score ≤ x.score then x :: y :: ys else y :: insertDesc x ys

/-- Line 42, scored_matches.sort(key score, reverse): a stable sort by
descending score. A stable sort for a total preorder is unique as a
function, so this insertion sort agrees with the sort of the source. -/
def sortDesc : List Scored → List Scored
  | [] => []
  | x :: xs => insertDesc x (sortDesc xs)

/-- Lines 43 to 49: walk the sorted list keeping the first match of each
category, the category being the id up to the first underscore. -/
def dedupByCat (seen : List String) : List Scored → List Scored
  | [] => []
  | m :: rest =>
    if seen.contains (categoryOf m.id) then dedupByCat seen rest
    else m :: dedupByCat (categoryOf m.id :: seen) rest

/-- Lines 50 to 56: the dictionary appended for a retained match; the
detail is the match truncated to 200 characters with an ellipsis. -/
def scoredDiag (m : Scored) : Diag :=
  ⟨m.id, m.rule.title, m.rule.explanation, m.rule.fix_example,
    if 200 < m.matched.data.length
    then String.mk (m.matched.data.take 200 ++ "...".data)
    else m.matched⟩

/-- Lines 59 to 66: the fallback dictionary when nothing matched and the
stripped output is non-empty. -/
def fallbackDiag (output : String) : Diag :=
  ⟨"unknown", "Unrecognized Error", "Error message didn\x27t match known patterns.",
    "Read the compiler output carefully and fix the syntax.",
    String.mk ((pyStrip output.data).take 500 ++ "...".data)⟩

/-- parse_javac_output, lines 13 to 68: score, sort, deduplicate by
category, fall back on an unknown-error entry, and return at most the
first element. -/
def parse_javac_output (rules : List JRule) (output : String) : List Diag :=
  let found := (dedupByCat [] (sortDesc (scoredMatches rules output))).map scoredDiag
  let found :=
    if found.isEmpty && !(pyStrip output.data).isEmpty then [fallbackDiag output]
    else found
  found.take 1

/-! ### analyze_runtime_output (lines 1129 to 1160) -/

/-- The leftmost match of the signature regex
kw in thread "[^"]*" ([\w\.]+) starting at the head of cs, returning
group 1. The class excluding the quote cannot cross the closing quote and
the group is greedy with nothing after it, so the match is deterministic:
the text up to the first quote, a space, then the maximal run of word or
dot characters, which must be non-empty. -/
def sigName (kw : String) (cs : List Char) : Option (List Char) :=
  let pre := kw.data ++ " in thread ".data ++ [quoteC]
  if pre.isPrefixOf cs then
    let rest := cs.drop pre.length
    let inQ := rest.takeWhile (· != quoteC)
    match rest.drop inQ.length with
    | q :: c :: rest2 =>
      if q == quoteC && c == ' ' then
        let name := rest2.takeWhile (fun c => isWordC c || c == '.')
        if name.isEmpty then none else some name
      else none
    | _ => none
  else none

/-- re.search of the signature: first position where it matches. -/
def findSig (kw : String) : List Char → Option (List Char)
  | [] => none
  | c :: rest =>
    match sigName kw (c :: rest) with
    | some n => some n
    | none => findSig kw rest

/-- analyze_runtime_output, lines 1129 to 1160. -/
def analyze_runtime_output (rules : List JRule) (output : String) : List Diag :=
  match findSig "Exception" output.data with
  | some name =>
    match parse_javac_output rules output with
    | m :: _ => [m]
    | [] =>
      [⟨"runtime_exception", "🔴 " ++ String.mk name,
        "A runtime exception occurred: " ++ String.mk name,
        "Check the stack trace for the line number and fix the issue.",
        String.mk (firstField '\n' output.data)⟩]
  | none =>
    match findSig "Error" output.data with
    | some name =>
      [⟨"runtime_error", "🔴 " ++ String.mk name,
        "A runtime error occurred: " ++ String.mk name,
        "Check the stack trace for details.",
        String.mk (firstField '\n' output.data)⟩]
    | none => []

/-! ### analyze_java_code (lines 1167 to 1339) -/

/-- The host environment as an oracle: availability of the two
executables, and the outcome of the two spawned processes, which the
source observes only through exit status and captured standard streams.
runOutcome is none when the run raises subprocess.TimeoutExpired, and
carries the pair (stdout, stderr) otherwise. -/
structure Env where
  javacAvailable : Bool
  javaAvailable : Bool
  compileReturncode : Int
  compileStdout : String
  compileStderr : String
  runOutcome : Option (String × String)

/-- Lines 1181 to 1192. -/
def javaNotAvailableDiag : Diag :=
  ⟨"java_not_available", "🚫 Java Execution Not Available",
    "This deployed server does not have Java (javac/java) installed. Because of security and platform limits, code execution is disabled.",
    "Run this code locally OR deploy using Docker with OpenJDK installed.",
    "javac/java not found in server environment"⟩

/-- Lines 1203 to 1209. -/
def requiresInputDiag : Diag :=
  ⟨"requires_input", "⌨️ Program Requires User Input",
    "Uses Scanner to read user input, which cannot be automated here.",
    "Replace Scanner with hardcoded values or run locally.",
    "Scanner usage detected"⟩

/-- Lines 1315 to 1321. -/
def timeoutDiag : Diag :=
  ⟨"timeout", "⏱️ Execution Timeout",
    "Program exceeded 5-second limit (possible infinite loop).",
    "Add proper loop conditions or optimize code.",
    "Timeout after 5 seconds"⟩

/-- The dictionary built by analyze_java_code. -/
structure AnalysisResult where
  success : Bool
  compile_output : String
  runtime_output : String
  errors : List Diag
deriving DecidableEq, Repr

/-- The seen_ids loops of lines 1242 to 1249 and 1278 to 1291: keep the
first dictionary for each id. -/
def dedupById (seen : List String) : List Diag → List Diag
  | [] => []
  | d :: rest =>
    if seen.contains d.id then dedupById seen rest
    else d :: dedupById (d.id :: seen) rest

/-- analyze_java_code, lines 1167 to 1339. The workspace file name computed
by find_public_class_name only feeds the spawned processes, which the
oracle already abstracts, so it does not appear. On the timeout path the
source seeds seen_ids with the timeout id but never extends it while
appending smells, and applies no cap; the embedding mirrors both. -/
def analyze_java_code (rules : List JRule) (env : Env) (code : String) : AnalysisResult :=
  if !env.javacAvailable || !env.javaAvailable then
    ⟨false, "", "", [javaNotAvailableDiag]⟩
  else if pyIn "Scanner" code &&
      (pyIn "nextInt()" code || pyIn "nextLine()" code || pyIn "next()" code) then
    ⟨false, "", "", [requiresInputDiag]⟩
  else
    let code_smells := detect_code_smells code
    let compile_output := env.compileStdout ++ env.compileStderr
    if env.compileReturncode != 0 then
      ⟨false, compile_output, "", dedupById [] (parse_javac_output rules compile_output)⟩
    else
      match env.runOutcome with
      | some (rout, rerr) =>
        let runtime_output := rout ++ rerr
        let runtime_errors := analyze_runtime_output rules runtime_output
        let all_errors := dedupById [] (runtime_errors ++ code_smells)
        if !all_errors.isEmpty then
          ⟨false, compile_output, runtime_output, all_errors.take 3⟩
        else
          ⟨true, compile_output, runtime_output, []⟩
      | none =>
        ⟨false, compile_output, "Program execution timed out.",
          timeoutDiag :: code_smells.filter (fun s => s.id != "timeout")⟩

/-! ### Library lemmas about the embedded operations -/

/-- Ids already seen never reappear in the output of dedupById. -/
theorem dedupById_not_mem (s : String) :
    ∀ (seen : List String) (l : List Diag), s ∈ seen →
      s ∉ (dedupById seen l).map (fun d => d.id)
  | _, [], _ => by simp [dedupById]
  | seen, d :: rest, hs => by
    simp only [dedupById]
    split
    · exact dedupById_not_mem s seen rest hs
    · simp only [List.map_cons, List.mem_cons]
      rintro (h | h)
      · rename_i hns
        rw [h] at hs
        exact hns (by simpa using hs)
      · exact dedupById_not_mem s (d.id :: seen) rest (List.mem_cons_of_mem _ hs) h

/-- The ids of the output of dedupById are pairwise distinct. -/
theorem dedupById_nodup :
    ∀ (seen : List String) (l : List Diag), ((dedupById seen l).map (fun d => d.id)).Nodup
  | _, [] => by simp [dedupById]
  | seen, d :: rest => by
    simp only [dedupById]
    split
    · exact dedupById_nodup seen rest
    · simp only [List.map_cons, List.nodup_cons]
      exact ⟨dedupById_not_mem d.id (d.id :: seen) rest (List.mem_cons_self _ _),
        dedupById_nodup (d.id :: seen) rest⟩

/-- dedupById with nothing seen keeps the head, so it sends only the empty
list to the empty list. -/
theorem dedupById_nil_of_eq_nil (l : List Diag) (h : dedupById [] l = []) : l = [] := by
  cases l with
  | nil => rfl
  | cons d rest => simp [dedupById] at h

/-- The ids appearing in the table of checks, pairwise distinct. -/
theorem smellChecks_ids_nodup : ((smellChecks.map (fun c => c.diag.id))).Nodup := by decide

/-- The ids of the diagnostics of detect_code_smells are pairwise
distinct: the result is a sublist of the table. -/
theorem detect_code_smells_ids_nodup (code : String) :
    ((detect_code_smells code).map (fun d => d.id)).Nodup := by
  have hsub : List.Sublist ((detect_code_smells code).map (fun d => d.id))
      (smellChecks.map (fun c => c.diag.id)) := by
    have h1 : List.Sublist (smellChecks.filter (fun c => c.cond code)) smellChecks :=
      List.filter_sublist _
    simpa [detect_code_smells, Function.comp] using
      (h1.map (fun c => c.diag.id))
  exact smellChecks_ids_nodup.sublist hsub

/-- Membership of a check diagnostic in the scan result is equivalent to
its condition firing: the ids of the table are distinct, so no other check
can contribute the same dictionary. -/
theorem mem_detect_iff (code : String) (c : SmellCheck) (hc : c ∈ smellChecks) :
    c.diag ∈ detect_code_smells code ↔ c.cond code = true := by
  constructor
  · intro h
    simp only [detect_code_smells, List.mem_map, List.mem_filter] at h
    obtain ⟨c', ⟨hcmem, hcond⟩, hdiag⟩ := h
    have hidnodup := smellChecks_ids_nodup
    have heq : c' = c := by
      refine List.inj_on_of_nodup_map hidnodup hcmem hc ?_
      rw [hdiag]
    rw [← heq]
    exact hcond
  · intro h
    simp only [detect_code_smells, List.mem_map, List.mem_filter]
    exact ⟨c, ⟨hc, h⟩, rfl⟩

/-! Stable sort lemmas: sortDesc permutes its input and sorts it by
descending score. -/

theorem insertDesc_perm (x : Scored) :
    ∀ l : List Scored, List.Perm (insertDesc x l) (x :: l)
  | [] => List.Perm.refl _
  | y :: ys => by
    simp only [insertDesc]
    split
    · exact List.Perm.refl _
    · exact ((insertDesc_perm x ys).cons y).trans (List.Perm.swap x y ys)

theorem sortDesc_perm : ∀ l : List Scored, List.Perm (sortDesc l) l
  | [] => List.Perm.refl _
  | x :: xs => (insertDesc_perm x (sortDesc xs)).trans ((sortDesc_perm xs).cons x)

theorem insertDesc_sorted (x : Scored) :
    ∀ l : List Scored, l.Pairwise (fun a b => b.score ≤ a.score) →
      (insertDesc x l).Pairwise (fun a b => b.score ≤ a.score)
  | [], _ => by simp [insertDesc]
  | y :: ys, h => by
    simp only [insertDesc]
    rw [List.pairwise_cons] at h
    split
    · rename_i hle
      refine List.pairwise_cons.mpr ⟨?_, List.pairwise_cons.mpr h⟩
      intro z hz
      rcases List.mem_cons.mp hz with hz | hz
      · rw [hz]; exact hle
      · exact le_trans (h.1 z hz) hle
    · rename_i hgt
      refine List.pairwise_cons.mpr ⟨?_, insertDesc_sorted x ys h.2⟩
      intro z hz
      rcases List.mem_cons.mp ((insertDesc_perm x ys).mem_iff.mp hz) with hz | hz
      · rw [hz]; exact le_of_not_le hgt
      · exact h.1 z hz

theorem sortDesc_sorted : ∀ l : List Scored,
    (sortDesc l).Pairwise (fun a b => b.score ≤ a.score)
  | [] => by simp [sortDesc]
  | x :: xs => insertDesc_sorted x (sortDesc xs) (sortDesc_sorted xs)

/-! ### Concrete environments and programs used by witnesses and
counterexamples -/

/-- A host without the compiler executable. -/
def envNoJavac : Env := ⟨false, true, 0, "", "", some ("", "")⟩

/-- A host with the toolchain where compilation succeeds and the run
finishes with empty streams. -/
def envRunOk : Env := ⟨true, true, 0, "", "", some ("", "")⟩

/-- A host with the toolchain where compilation succeeds and the run hits
the 5 second deadline. -/
def envTimeout : Env := ⟨true, true, 0, "", "", none⟩

/-- A host with the toolchain and arbitrary non-trivial process outcomes,
used to show the guards ignore them. -/
def envScratchProc : Env := ⟨true, true, 1, "co", "ce", some ("ro", "re")⟩

/-- A compilable program that loops forever: its run times out. -/
def loopCode : String :=
  "class a\x7bpublic static void main(String[] m)\x7bfor(;;);\x7d\x7d"

/-- A source text reading from a Scanner with no guard. -/
def scannerCode : String := "class A\x7bScanner s;int x=s.nextInt();\x7d"

/-- A source text containing every keyword whose absence fires one of the
unconditional keyword checks, so that the scan finds nothing. -/
def keywordCode : String := "assert @Test edge git immutable"

/-! ### C7: environment guard -/

/-- C7: for every source text, when the compiler or the runtime executable
is not discoverable on the host, Analyze short-circuits and returns
success false, exactly one execution-unavailable diagnostic, and empty
compile and runtime outputs, regardless of the source content and of the
process outcomes recorded in the environment. -/
theorem C7_environment_guard (rules : List JRule) (env : Env) (code : String)
    (h : env.javacAvailable = false ∨ env.javaAvailable = false) :
    analyze_java_code rules env code = ⟨false, "", "", [javaNotAvailableDiag]⟩ := by
  unfold analyze_java_code
  rcases h with h | h <;> simp [h]

/-- Witness for C7 at a concrete host and source. -/
theorem C7_environment_guard_witness :
    analyze_java_code [] envNoJavac "class X\x7bint y=1;\x7d" =
      ⟨false, "", "", [javaNotAvailableDiag]⟩ :=
  C7_environment_guard [] envNoJavac "class X\x7bint y=1;\x7d" (Or.inl rfl)

/-! ### C8: input-requirement guard -/

/-- C8: for every source text containing the Scanner marker and one of the
blocking read calls, Analyze returns immediately with success false, one
requires-input diagnostic and empty outputs; the result does not depend on
the compile or run fields of the environment, so no compiler process
outcome is ever consulted on this path. -/
theorem C8_input_guard (rules : List JRule) (env : Env) (code : String)
    (h1 : env.javacAvailable = true) (h2 : env.javaAvailable = true)
    (h3 : pyIn "Scanner" code = true)
    (h4 : (pyIn "nextInt()" code || pyIn "nextLine()" code || pyIn "next()" code) = true) :
    analyze_java_code rules env code = ⟨false, "", "", [requiresInputDiag]⟩ := by
  unfold analyze_java_code
  simp [h1, h2, h3, h4]

/-- Witness for C8: a Scanner-reading program on a host whose compile and
run outcomes are non-trivial and visibly ignored. -/
theorem C8_input_guard_witness :
    analyze_java_code [] envScratchProc scannerCode =
      ⟨false, "", "", [requiresInputDiag]⟩ :=
  C8_input_guard [] envScratchProc scannerCode rfl rfl (by decide) (by decide)

/-! ### C10: runtime classification requires a thread signature -/

/-- C10: when the runtime output contains no substring matching
Exception in thread "..." name and none matching Error in thread "..."
name, analyze_runtime_output returns the empty list, whatever the rule
table. -/
theorem C10_runtime_requires_signature (rules : List JRule) (output : String)
    (h1 : findSig "Exception" output.data = none)
    (h2 : findSig "Error" output.data = none) :
    analyze_runtime_output rules output = [] := by
  unfold analyze_runtime_output
  rw [h1, h2]

/-- Witness for C10 on an output with error text but no signature. -/
theorem C10_runtime_requires_signature_witness :
    analyze_runtime_output [] "segmentation fault: core dumped" = [] :=
  C10_runtime_requires_signature [] "segmentation fault: core dumped" (by decide) (by decide)

/-! ### C6: timeout handling (corrected) -/

/-- Counterexample to C6 as stated: on the timeout path the runtime output
is not the empty string claimed by the spec. At a concrete input the
success flag is false and the timeout diagnostic comes first, but
runtime_output is the non-empty timeout message. -/
theorem C6_counterexample :
    (analyze_java_code [] envTimeout "x").success = false ∧
    (analyze_java_code [] envTimeout "x").errors.head? = some timeoutDiag ∧
    (analyze_java_code [] envTimeout "x").runtime_output ≠ "" := by
  decide

/-- C6 amended: on deadline expiry Analyze returns normally with success
false, a synthesized timeout diagnostic first in the sequence, and
runtime_output equal to the fixed message Program execution timed out.
rather than the empty string. -/
theorem C6_amended_timeout (rules : List JRule) (env : Env) (code : String)
    (h1 : env.javacAvailable = true) (h2 : env.javaAvailable = true)
    (hg : (pyIn "Scanner" code &&
      (pyIn "nextInt()" code || pyIn "nextLine()" code || pyIn "next()" code)) = false)
    (h4 : env.compileReturncode = 0) (h5 : env.runOutcome = none) :
    (analyze_java_code rules env code).success = false ∧
    (analyze_java_code rules env code).runtime_output = "Program execution timed out." ∧
    (analyze_java_code rules env code).errors.head? = some timeoutDiag := by
  unfold analyze_java_code
  simp [h1, h2, hg, h4, h5]

/-- Witness for the amended C6 at a concrete input. -/
theorem C6_amended_timeout_witness :
    (analyze_java_code [] envTimeout "x").success = false ∧
    (analyze_java_code [] envTimeout "x").runtime_output = "Program execution timed out." ∧
    (analyze_java_code [] envTimeout "x").errors.head? = some timeoutDiag :=
  C6_amended_timeout [] envTimeout "x" rfl rfl (by decide) rfl rfl

/-! ### C1: the per-result deduplication key (corrected) -/

/-- Counterexample to C1 as stated: on the runtime-plus-scan merge path
the returned sequence can carry two diagnostics of the same category. For
the source class A with empty braces on a host where compilation and the
run both succeed silently, the three returned diagnostics have categories
51, bp, bp: the bp category repeats, because the merge deduplicates by id
and not by category. -/
theorem C1_counterexample :
    ((analyze_java_code [] envRunOk "class A\x7b\x7d").errors.map
        (fun d => categoryOf d.id)) = ["51", "bp", "bp"] ∧
    ¬ ((analyze_java_code [] envRunOk "class A\x7b\x7d").errors.map
        (fun d => categoryOf d.id)).Nodup := by
  decide

/-- C1 amended: within one AnalysisResult no two diagnostics share the
same id, on every exit path; the code deduplicates by id, not by the
category prefix of the id. -/
theorem C1_amended_ids_distinct (rules : List JRule) (env : Env) (code : String) :
    (((analyze_java_code rules env code).errors).map (fun d => d.id)).Nodup := by
  unfold analyze_java_code
  split
  · simp
  · split
    · simp
    · split
      · exact dedupById_nodup [] _
      · split
        · dsimp only
          split
          · rw [List.map_take]
            exact (dedupById_nodup [] _).sublist (List.take_sublist 3 _)
          · simp
        · refine List.nodup_cons.mpr ⟨?_, ?_⟩
          · intro hmem
            simp only [List.mem_map, List.mem_filter] at hmem
            obtain ⟨d, ⟨_, hne⟩, hid⟩ := hmem
            rw [hid] at hne
            simp [timeoutDiag] at hne
          · have hsub : List.Sublist
                (((detect_code_smells code).filter (fun s => s.id != "timeout")).map
                  (fun d => d.id))
                ((detect_code_smells code).map (fun d => d.id)) :=
              (List.filter_sublist _).map (fun (d : Diag) => d.id)
            exact (detect_code_smells_ids_nodup code).sublist hsub

/-! ### C2: the overall cap of three diagnostics (code bug) -/

/-- C2 evaluated at the failing input: a compilable program that loops
forever. On the timeout path the source appends every scanned smell after
the timeout diagnostic without applying the cap of three used on the merge
path, so the result carries nine diagnostics. -/
theorem C2_timeout_path_uncapped :
    (analyze_java_code [] envTimeout loopCode).errors.length = 9 ∧
    3 < (analyze_java_code [] envTimeout loopCode).errors.length := by
  decide

/-- dedupByCat always keeps the head when nothing is seen yet. -/
theorem dedupByCat_cons (m : Scored) (rest : List Scored) :
    dedupByCat [] (m :: rest) = m :: dedupByCat [categoryOf m.id] rest := by
  simp [dedupByCat]

/-! ### C3: the classifier returns at most the top-ranked candidate -/

/-- C3: Classify returns at most one diagnostic; and whenever at least one
rule matches, the returned diagnostic is built from a candidate of maximal
score among the scored matches: candidates are scored by ten times the
pattern length plus the keyword bonus, the stable descending sort groups
and orders them, the category pass keeps the first of each category, and
the final truncation keeps exactly the first of that ordering. -/
theorem C3_classifier_top_ranked (rules : List JRule) (output : String) :
    (parse_javac_output rules output).length ≤ 1 ∧
    (scoredMatches rules output ≠ [] →
      ∃ c ∈ scoredMatches rules output,
        parse_javac_output rules output = [scoredDiag c] ∧
        ∀ d ∈ scoredMatches rules output, d.score ≤ c.score) := by
  constructor
  · exact List.length_take_le 1 _
  · intro h
    obtain ⟨s, rest, hsort⟩ :
        ∃ s rest, sortDesc (scoredMatches rules output) = s :: rest := by
      cases hs : sortDesc (scoredMatches rules output) with
      | nil =>
        have hperm := sortDesc_perm (scoredMatches rules output)
        rw [hs] at hperm
        exact absurd hperm.symm.eq_nil h
      | cons s rest => exact ⟨s, rest, rfl⟩
    have hmem : s ∈ scoredMatches rules output :=
      (sortDesc_perm (scoredMatches rules output)).mem_iff.mp
        (hsort ▸ List.mem_cons_self s rest)
    refine ⟨s, hmem, ?_, ?_⟩
    · unfold parse_javac_output
      rw [hsort, dedupByCat_cons]
      simp
    · intro d hd
      have hd2 : d ∈ s :: rest := by
        rw [← hsort]
        exact (sortDesc_perm (scoredMatches rules output)).mem_iff.mpr hd
      rcases List.mem_cons.mp hd2 with h1 | h1
      · rw [h1]
      · have hp := sortDesc_sorted (scoredMatches rules output)
        rw [hsort] at hp
        exact (List.pairwise_cons.mp hp).1 d h1

/-- Witness rule table and texts for the classifier theorems. -/
def wRules : List JRule := [
  ⟨"type_mismatch", "incompatible types", "Type mismatch", "review the types", "cast", true⟩,
  ⟨"missing_semicolon", "expected", "Missing terminator", "add it", "x = 1;", true⟩]

/-- Witness for C3 on a table where two rules match: the conclusion is
obtained from the theorem with its hypothesis discharged by evaluation. -/
theorem C3_classifier_top_ranked_witness :
    (parse_javac_output wRules "error: incompatible types: expected int").length ≤ 1 ∧
    (∃ c ∈ scoredMatches wRules "error: incompatible types: expected int",
      parse_javac_output wRules "error: incompatible types: expected int" = [scoredDiag c] ∧
      ∀ d ∈ scoredMatches wRules "error: incompatible types: expected int",
        d.score ≤ c.score) :=
  ⟨(C3_classifier_top_ranked wRules "error: incompatible types: expected int").1,
    (C3_classifier_top_ranked wRules "error: incompatible types: expected int").2 (by decide)⟩

/-! ### C4: the search flags (corrected) -/

/-- A rule with a literal pattern taken from the regression-test samples. -/
def caseRule : JRule := ⟨"missing_semicolon", "expected", "T", "E", "F", true⟩

/-- Counterexample to C4 as stated: the source compiles every pattern with
no flag, so matching is case-sensitive. The lowercase text produces the
rule diagnostic, while the text differing only in letter case does not:
it falls through to the unknown-error fallback. -/
theorem C4_counterexample :
    (parse_javac_output [caseRule] "error: expected").map (fun d => d.id) =
      ["missing_semicolon"] ∧
    (parse_javac_output [caseRule] "ERROR: EXPECTED").map (fun d => d.id) =
      ["unknown"] := by
  decide

/-- C4 amended: every rule regex is compiled with default flags, neither
case-insensitive nor multi-line; for a rule with a literal pattern, a
candidate is produced only when the pattern occurs in the text with exact
case. -/
theorem C4_amended_case_sensitive (r : JRule) (t : String)
    (h : scoredMatches [r] t ≠ []) :
    infixOfL r.pattern.data t.data = true := by
  cases hio : infixOfL r.pattern.data t.data with
  | true => rfl
  | false =>
    have hempty : scoredMatches [r] t = [] := by
      simp [scoredMatches, litSearch, hio]
    exact absurd hempty h

/-- Witness for the amended C4. -/
theorem C4_amended_case_sensitive_witness :
    infixOfL caseRule.pattern.data ("error: expected").data = true :=
  C4_amended_case_sensitive caseRule "error: expected" (by decide)

/-! ### C5: the fallback diagnostic (corrected) -/

/-- Counterexample to C5 as stated: the fallback detail is not capped at
500 characters. On a 501-character unmatched text the source appends the
ellipsis after the 500-character slice, giving a 503-character detail. -/
theorem C5_counterexample :
    ∃ d ∈ parse_javac_output [] (String.mk (List.replicate 501 'a')),
      500 < d.detail.length := by
  decide

/-- C5 amended: when no rule matches and the stripped text is non-empty,
Classify returns exactly one fallback diagnostic with the unknown id whose
detail is the first 500 characters of the stripped text followed by an
ellipsis, hence of length at most 503. -/
theorem C5_amended_fallback (rules : List JRule) (output : String)
    (h1 : scoredMatches rules output = [])
    (h2 : pyStrip output.data ≠ []) :
    parse_javac_output rules output = [fallbackDiag output] ∧
    ∀ d ∈ parse_javac_output rules output, d.detail.length ≤ 503 := by
  have h2e : (pyStrip output.data).isEmpty = false := by
    simpa [List.isEmpty_iff] using h2
  have hp : parse_javac_output rules output = [fallbackDiag output] := by
    unfold parse_javac_output
    rw [h1]
    simp [sortDesc, dedupByCat, h2e]
  refine ⟨hp, ?_⟩
  intro d hd
  rw [hp] at hd
  have hd2 : d = fallbackDiag output := by simpa using hd
  rw [hd2]
  show ((pyStrip output.data).take 500 ++ "...".data).length ≤ 503
  rw [List.length_append]
  have ht : ((pyStrip output.data).take 500).length ≤ 500 := List.length_take_le 500 _
  have h3 : ("...".data).length = 3 := rfl
  omega

/-- Witness for the amended C5 on a short unmatched text. -/
theorem C5_amended_fallback_witness :
    parse_javac_output [] "boom" = [fallbackDiag "boom"] ∧
    ∀ d ∈ parse_javac_output [] "boom", d.detail.length ≤ 503 :=
  C5_amended_fallback [] "boom" (by decide) (by decide)

/-! ### C9: the unconditional keyword checks -/

theorem bp16Check_mem : bp16Check ∈ smellChecks := by
  simp [smellChecks, smellChecksC, List.mem_append, List.mem_cons]

theorem bp17Check_mem : bp17Check ∈ smellChecks := by
  simp [smellChecks, smellChecksC, List.mem_append, List.mem_cons]

theorem bp18Check_mem : bp18Check ∈ smellChecks := by
  simp [smellChecks, smellChecksC, List.mem_append, List.mem_cons]

theorem bp19Check_mem : bp19Check ∈ smellChecks := by
  simp [smellChecks, smellChecksC, List.mem_append, List.mem_cons]

/-- Two keyword flags cannot both be false when their check did not fire. -/
theorem bool_resolve (a b : Bool) (h : ¬(a = false ∧ b = false)) :
    a = true ∨ b = true := by
  cases a <;> cases b <;> simp_all

/-- A successful analysis forces the scan to have found nothing: success
is returned only on the merge path with an empty merged error list. -/
theorem analyze_success_no_smells (rules : List JRule) (env : Env) (code : String)
    (hs : (analyze_java_code rules env code).success = true) :
    detect_code_smells code = [] := by
  unfold analyze_java_code at hs
  split at hs
  · simp at hs
  · split at hs
    · simp at hs
    · split at hs
      · simp at hs
      · split at hs
        · rename_i rout rerr heq
          dsimp only at hs
          split at hs
          · simp at hs
          · rename_i hcond
            have hemp : (dedupById [] (analyze_runtime_output rules (rout ++ rerr) ++
                detect_code_smells code)).isEmpty = true := by
              cases hxe : (dedupById [] (analyze_runtime_output rules (rout ++ rerr) ++
                  detect_code_smells code)).isEmpty
              · exact absurd (by rw [hxe]; rfl) hcond
              · rfl
            have hnil := dedupById_nil_of_eq_nil _ (List.isEmpty_iff.mp hemp)
            exact (List.append_eq_nil.mp hnil).2
        · simp at hs

/-- C9: the keyword best-practice checks bp 16 to bp 19 fire exactly when
their keywords are absent from the source (assert or
IllegalArgumentException, the test markers, the edge or boundary words,
and git); consequently the scan of the empty source is non-empty, and an
analysis can only succeed on a source containing all four keyword
groups. -/
theorem C9_keyword_checks :
    detect_code_smells "" ≠ [] ∧
    (∀ code : String, bp16Check.diag ∈ detect_code_smells code ↔
      (pyIn "assert" (String.mk (pyLower code.data)) = false ∧
        pyIn "IllegalArgumentException" code = false)) ∧
    (∀ code : String, bp17Check.diag ∈ detect_code_smells code ↔
      (pyIn "@Test" code = false ∧ pyIn "JUnit" code = false)) ∧
    (∀ code : String, bp18Check.diag ∈ detect_code_smells code ↔
      (pyIn "edge" (String.mk (pyLower code.data)) = false ∧
        pyIn "boundary" (String.mk (pyLower code.data)) = false)) ∧
    (∀ code : String, bp19Check.diag ∈ detect_code_smells code ↔
      pyIn "git" (String.mk (pyLower code.data)) = false) ∧
    (∀ (rules : List JRule) (env : Env) (code : String),
      (analyze_java_code rules env code).success = true →
      (pyIn "assert" (String.mk (pyLower code.data)) = true ∨
        pyIn "IllegalArgumentException" code = true) ∧
      (pyIn "@Test" code = true ∨ pyIn "JUnit" code = true) ∧
      (pyIn "edge" (String.mk (pyLower code.data)) = true ∨
        pyIn "boundary" (String.mk (pyLower code.data)) = true) ∧
      pyIn "git" (String.mk (pyLower code.data)) = true) := by
  have h16 : ∀ code : String, bp16Check.diag ∈ detect_code_smells code ↔
      (pyIn "assert" (String.mk (pyLower code.data)) = false ∧
        pyIn "IllegalArgumentException" code = false) := by
    intro code
    rw [mem_detect_iff code bp16Check bp16Check_mem]
    simp [bp16Check, condBp16, Bool.and_eq_true, Bool.not_eq_true']
  have h17 : ∀ code : String, bp17Check.diag ∈ detect_code_smells code ↔
      (pyIn "@Test" code = false ∧ pyIn "JUnit" code = false) := by
    intro code
    rw [mem_detect_iff code bp17Check bp17Check_mem]
    simp [bp17Check, condBp17, Bool.and_eq_true, Bool.not_eq_true']
  have h18 : ∀ code : String, bp18Check.diag ∈ detect_code_smells code ↔
      (pyIn "edge" (String.mk (pyLower code.data)) = false ∧
        pyIn "boundary" (String.mk (pyLower code.data)) = false) := by
    intro code
    rw [mem_detect_iff code bp18Check bp18Check_mem]
    simp [bp18Check, condBp18, Bool.and_eq_true, Bool.not_eq_true']
  have h19 : ∀ code : String, bp19Check.diag ∈ detect_code_smells code ↔
      pyIn "git" (String.mk (pyLower code.data)) = false := by
    intro code
    rw [mem_detect_iff code bp19Check bp19Check_mem]
    simp [bp19Check, condBp19, Bool.not_eq_true']
  refine ⟨by decide, h16, h17, h18, h19, ?_⟩
  intro rules env code hs
  have hnil := analyze_success_no_smells rules env code hs
  have hno16 : ¬ (bp16Check.diag ∈ detect_code_smells code) := by rw [hnil]; simp
  have hno17 : ¬ (bp17Check.diag ∈ detect_code_smells code) := by rw [hnil]; simp
  have hno18 : ¬ (bp18Check.diag ∈ detect_code_smells code) := by rw [hnil]; simp
  have hno19 : ¬ (bp19Check.diag ∈ detect_code_smells code) := by rw [hnil]; simp
  rw [h16 code] at hno16
  rw [h17 code] at hno17
  rw [h18 code] at hno18
  rw [h19 code] at hno19
  refine ⟨bool_resolve _ _ hno16, bool_resolve _ _ hno17, bool_resolve _ _ hno18, ?_⟩
  cases hb : pyIn "git" (String.mk (pyLower code.data)) with
  | true => rfl
  | false => exact absurd hb hno19

/-- Witness for C9: a source carrying all four keyword groups on which the
analysis succeeds; the git conclusion is drawn through the theorem. -/
theorem C9_keyword_checks_witness :
    (analyze_java_code [] envRunOk keywordCode).success = true ∧
    pyIn "git" (String.mk (pyLower keywordCode.data)) = true :=
  ⟨by decide,
    (C9_keyword_checks.2.2.2.2.2 [] envRunOk keywordCode (by decide)).2.2.2⟩
